import Mathlib

/-!
# posixSocket and MDNHelper (VMime)

A shallow embedding of the POSIX socket of the VMime library
(`src/platforms/posix/posixSocket.cpp`), in the `VMIME_HAVE_GETADDRINFO` /
`VMIME_HAVE_GETNAMEINFO` configuration, and of the functions of
`src/mdn/MDNHelper.cpp` that build and recognise disposition notifications.

The operating system is an explicit `World` that is threaded through every
operation: it holds `errno`, the multiset of open handles, a log of the system
calls issued and the bytes the transport has accepted.  What the operating
system answers to a call (the result of `socket`, `connect`, `select`, `recv`,
`send`, `getaddrinfo`, `getnameinfo`) is supplied by the caller of the model, so
every theorem quantifies over all behaviours of the environment.

Only a failing system call writes `errno`: `close`, `freeaddrinfo`, `fcntl`,
`sched_yield` and the methods of the timeout handler leave it alone.

A C++ `throw` leaves the object in the state it had when the exception was
raised; operations that can throw therefore return an `Outcome`, which carries
the socket and the world next to the `Except` result.
-/

namespace vmime

/-! ## Constants of `<errno.h>` (Linux values) and of `vmime/net/socket.hpp` -/

def EINTR : Int := 4
def EBADF : Int := 9
def EAGAIN : Int := 11
def EWOULDBLOCK : Int := 11
def ENOMEM : Int := 12
def EACCES : Int := 13
def EFAULT : Int := 14
def EINVAL : Int := 22
def ENFILE : Int := 23
def EMFILE : Int := 24
def EPIPE : Int := 32
def EMSGSIZE : Int := 90
def EPROTONOSUPPORT : Int := 93
def EAFNOSUPPORT : Int := 97
def ECONNRESET : Int := 104
def ENOBUFS : Int := 105
def ENOTCONN : Int := 107
def ECONNREFUSED : Int := 111
def EINPROGRESS : Int := 115

/-- The only status bit of `vmime::net::socket`: `STATUS_WOULDBLOCK = 0x1`. -/
def STATUS_WOULDBLOCK : Nat := 1

/-- The macro `IS_EAGAIN(x)`, in the branch where `EWOULDBLOCK` is defined. -/
def IS_EAGAIN (x : Int) : Bool :=
  x == EAGAIN || x == EWOULDBLOCK || x == EINTR

/-- The expression `m_status &= ~STATUS_WOULDBLOCK` on a 32-bit `unsigned int`. -/
def clearWouldBlock (m_status : Nat) : Nat :=
  m_status &&& (2 ^ 32 - 1 - STATUS_WOULDBLOCK)

/-- The expression `m_status |= STATUS_WOULDBLOCK`. -/
def setWouldBlock (m_status : Nat) : Nat :=
  m_status ||| STATUS_WOULDBLOCK

/-! ## Exceptions -/

/-- The two exception classes thrown by `posixSocket`.  A `connection_error`
may wrap another exception (the constructor argument `other`). -/
inductive exception where
  | socket_exception (what : String)
  | connection_error (what : String) (other : Option exception)

/-- Dynamic type test: is the exception a `connection_error`? -/
def exception.isConnectionError : exception → Bool
  | .connection_error _ _ => true
  | .socket_exception _ => false

/-- Dynamic type test: is the exception a `socket_exception`? -/
def exception.isSocketException : exception → Bool
  | .socket_exception _ => true
  | .connection_error _ _ => false

/-! ## The operating system -/

/-- One entry of the log of system calls (and of calls to the platform
handler) issued by the socket. -/
inductive Syscall where
  | close (fd : Int)
  | shutdown (fd : Int)
  | socket (ret : Int)
  | fcntl (fd : Int)
  | connect (fd : Int)
  | select (fd : Int)
  | sched_yield
  | freeaddrinfo
  | recv (fd : Int)
  | send (fd : Int) (size : Nat)
  | wait
  | getpeername (fd : Int)
  | getaddrinfo (node : String)
  | getnameinfo
  deriving DecidableEq, Repr

/-- The part of the process state that the socket can observe or change. -/
structure World where
  /-- Value of the C variable `errno`. -/
  errno : Int
  /-- Handles that are open, with multiplicity (a descriptor number can be
  handed out again after it was closed). -/
  handles : List Int
  /-- Calls issued so far, oldest first. -/
  trace : List Syscall
  /-- Number of `::send` calls issued so far (the index of the next one). -/
  sends : Nat
  /-- Bytes accepted by the transport so far, in call order. -/
  sent : List UInt8
  deriving DecidableEq

/-- Append one call to the log. -/
def World.log (w : World) (c : Syscall) : World :=
  { w with trace := w.trace ++ [c] }

/-- A system call that failed stores its error code in `errno`; one that
succeeded leaves `errno` alone. -/
def World.setErrno (w : World) (ret : Int) (err : Int) : World :=
  if ret < 0 then { w with errno := err } else w

/-- The system call `::close(fd)`: the handle is released.  The call succeeds,
so `errno` keeps its value. -/
def World.close (w : World) (fd : Int) : World :=
  { w with handles := w.handles.erase fd, trace := w.trace ++ [Syscall.close fd] }

/-- The system call `::shutdown(fd, SHUT_RDWR)`. -/
def World.shutdown (w : World) (fd : Int) : World :=
  w.log (Syscall.shutdown fd)

/-! ## The timeout handler and the socket object -/

/-- The interface `vmime::net::timeoutHandler`: an object with a state of type
`σ` and the three virtual methods. -/
structure timeoutHandler (σ : Type) where
  state : σ
  isTimeOutFn : σ → Bool × σ
  resetTimeOutFn : σ → σ
  handleTimeOutFn : σ → Bool × σ

/-- Call of `isTimeOut()`: the answer and the handler afterwards. -/
def timeoutHandler.isTimeOut {σ : Type} (th : timeoutHandler σ) : Bool × timeoutHandler σ :=
  ((th.isTimeOutFn th.state).1, { th with state := (th.isTimeOutFn th.state).2 })

/-- Call of `resetTimeOut()`. -/
def timeoutHandler.resetTimeOut {σ : Type} (th : timeoutHandler σ) : timeoutHandler σ :=
  { th with state := th.resetTimeOutFn th.state }

/-- Call of `handleTimeOut()`: the answer and the handler afterwards. -/
def timeoutHandler.handleTimeOut {σ : Type} (th : timeoutHandler σ) : Bool × timeoutHandler σ :=
  ((th.handleTimeOutFn th.state).1, { th with state := (th.handleTimeOutFn th.state).2 })

/-- The data members of `posixSocket`. -/
structure posixSocket (σ : Type) where
  m_timeoutHandler : Option (timeoutHandler σ)
  m_desc : Int
  m_status : Nat
  m_serverAddress : String
  m_buffer : List UInt8

/-- Result of an operation that may throw: the value or the exception, and the
socket and the world as the operation left them. -/
structure Outcome (σ : Type) (α : Type) where
  result : Except exception α
  sock : posixSocket σ
  world : World

/-- The constructor `posixSocket::posixSocket(th)`. -/
def posixSocket.create {σ : Type} (th : Option (timeoutHandler σ)) : posixSocket σ :=
  { m_timeoutHandler := th, m_desc := -1, m_status := 0, m_serverAddress := "", m_buffer := [] }

/-! ## Error taxonomy -/

/-- The message chosen by the `switch` of `posixSocket::throwSocketError`;
`strerror` is the C library function used by the `default` arm. -/
def socketErrorMessage (strerror : Int → String) (err : Int) : String :=
  if err = EACCES then "EACCES: permission denied"
  else if err = EAFNOSUPPORT then "EAFNOSUPPORT: address family not supported"
  else if err = EMFILE then "EMFILE: process file table overflow"
  else if err = ENFILE then "ENFILE: system limit reached"
  else if err = EPROTONOSUPPORT then "EPROTONOSUPPORT: protocol not supported"
  else if err = EAGAIN then "EGAIN: blocking operation"
  else if err = EBADF then "EBADF: invalid descriptor"
  else if err = ECONNRESET then "ECONNRESET: connection reset by peer"
  else if err = EFAULT then "EFAULT: bad user space address"
  else if err = EINTR then "EINTR: signal occured before transmission"
  else if err = EINVAL then "EINVAL: invalid argument"
  else if err = EMSGSIZE then "EMSGSIZE: message cannot be sent atomically"
  else if err = ENOBUFS then "ENOBUFS: output queue is full"
  else if err = ENOMEM then "ENOMEM: out of memory"
  else if err = EPIPE ∨ err = ENOTCONN then "ENOTCONN: not connected"
  else if err = ECONNREFUSED then "ECONNREFUSED: connection refused"
  else strerror err

/-- The exception thrown by `posixSocket::throwSocketError(err)` (the function
never returns normally). -/
def posixSocket.throwSocketError (strerror : Int → String) (err : Int) : exception :=
  exception.socket_exception (socketErrorMessage strerror err)

/-! ## Looping send -/

/-- The transport behind `::send`: given the index of the call and the number
of bytes offered, the return value of the call and the error code it stores in
`errno` when the return value is negative. -/
abbrev Transport := Nat → Nat → Int × Int

/-- The system call `::send(fd, buffer + off, size, 0)`: the transport accepts
the first `ret` of the bytes offered when `ret` is not negative. -/
def World.send (w : World) (t : Transport) (fd : Int) (buffer : List UInt8) (off size : Nat) :
    Int × World :=
  let r := t w.sends size
  (r.1,
    { (w.setErrno r.1 r.2) with
      trace := w.trace ++ [Syscall.send fd size]
      sends := w.sends + 1
      sent := if r.1 < 0 then w.sent else w.sent ++ ((buffer.drop off).take size).take r.1.toNat })

/-- The `while (size > 0)` loop of `posixSocket::sendRaw`.  `off` is the
distance the pointer `buffer` has advanced and `size` the 64-bit counter; the
result is `none` when `fuel` iterations did not end the loop. -/
def posixSocket.sendLoop (strerror : Int → String) (t : Transport) (fd : Int)
    (buffer : List UInt8) : Nat → Nat → Nat → World → Option (Except exception Unit × World)
  | fuel, off, size, w =>
    if size > 0 then
      match fuel with
      | 0 => none
      | fuel + 1 =>
        let r := w.send t fd buffer off size
        if r.1 < 0 then
          if !IS_EAGAIN r.2.errno then
            some (Except.error (posixSocket.throwSocketError strerror r.2.errno), r.2)
          else
            posixSocket.sendLoop strerror t fd buffer fuel off size (r.2.log Syscall.wait)
        else
          posixSocket.sendLoop strerror t fd buffer fuel (off + r.1.toNat)
            ((((size : Int) - r.1) % 2 ^ 64).toNat) r.2
    else
      some (Except.ok (), w)

/-- The method `posixSocket::sendRaw(buffer, count)`. -/
def posixSocket.sendRaw {σ : Type} (strerror : Int → String) (t : Transport) (fuel : Nat)
    (s : posixSocket σ) (w : World) (buffer : List UInt8) (count : Nat) :
    Option (Outcome σ Unit) :=
  let s1 := { s with m_status := clearWouldBlock s.m_status }
  match posixSocket.sendLoop strerror t s1.m_desc buffer fuel 0 count w with
  | none => none
  | some (Except.error e, w1) => some { result := Except.error e, sock := s1, world := w1 }
  | some (Except.ok (), w1) =>
    match s1.m_timeoutHandler with
    | some th =>
      some { result := Except.ok (),
             sock := { s1 with m_timeoutHandler := some th.resetTimeOut },
             world := w1 }
    | none => some { result := Except.ok (), sock := s1, world := w1 }

/-- The method `posixSocket::send(buffer)`. -/
def posixSocket.send {σ : Type} (strerror : Int → String) (t : Transport) (fuel : Nat)
    (s : posixSocket σ) (w : World) (buffer : List UInt8) : Option (Outcome σ Unit) :=
  posixSocket.sendRaw strerror t fuel s w buffer buffer.length

/-! ## Receive -/

/-- The system call `::select` on the handle `fd`; `r` is the return value and
the error code of the call. -/
def World.select (w : World) (fd : Int) (r : Int × Int) : World :=
  (w.setErrno r.1 r.2).log (Syscall.select fd)

/-- Answer of the operating system to a `::recv`: the return value, the error
code, and the bytes copied to the start of the buffer. -/
structure RecvRet where
  ret : Int
  err : Int
  data : List UInt8

/-- The system call `::recv(fd, buffer, count, 0)`. -/
def World.recv (w : World) (fd : Int) (r : RecvRet) : World :=
  (w.setErrno r.ret r.err).log (Syscall.recv fd)

/-- The block that follows a would-block result in `posixSocket::receiveRaw`
(the source has it twice, after `select` and after `recv`): consult the timeout
handler, then set `STATUS_WOULDBLOCK` and return 0. -/
def posixSocket.noDataAvailable {σ : Type} (strerror : Int → String) (s : posixSocket σ)
    (w : World) : Outcome σ Nat :=
  match s.m_timeoutHandler with
  | some th =>
    let a := th.isTimeOut
    if a.1 then
      let b := a.2.handleTimeOut
      if !b.1 then
        { result := Except.error (posixSocket.throwSocketError strerror w.errno),
          sock := { s with m_timeoutHandler := some b.2 }, world := w }
      else
        { result := Except.ok 0,
          sock := { s with m_timeoutHandler := some b.2.resetTimeOut,
                           m_status := setWouldBlock s.m_status },
          world := w }
    else
      { result := Except.ok 0,
        sock := { s with m_timeoutHandler := some a.2, m_status := setWouldBlock s.m_status },
        world := w }
  | none =>
    { result := Except.ok 0, sock := { s with m_status := setWouldBlock s.m_status }, world := w }

/-- The method `posixSocket::receiveRaw(buffer, count)` called on the member
`m_buffer`; `sel` and `rcv` are the answers of the operating system to the
`select` and to the `recv` (the latter is only used when `recv` is reached). -/
def posixSocket.receiveRaw {σ : Type} (strerror : Int → String) (s : posixSocket σ) (w : World)
    (sel : Int × Int) (rcv : RecvRet) (count : Nat) : Outcome σ Nat :=
  let s1 := { s with m_status := clearWouldBlock s.m_status }
  let w1 := w.select s1.m_desc sel
  if sel.1 < 0 then
    if !IS_EAGAIN w1.errno then
      { result := Except.error (posixSocket.throwSocketError strerror w1.errno),
        sock := s1, world := w1 }
    else
      posixSocket.noDataAvailable strerror s1 w1
  else
    let w2 := w1.recv s1.m_desc rcv
    let s2 := { s1 with m_buffer := (rcv.data.take count) ++ s1.m_buffer.drop (rcv.data.take count).length }
    if rcv.ret < 0 then
      if !IS_EAGAIN w2.errno then
        { result := Except.error (posixSocket.throwSocketError strerror w2.errno),
          sock := s1, world := w2 }
      else
        posixSocket.noDataAvailable strerror s1 w2
    else if rcv.ret = 0 then
      { result := Except.error (posixSocket.throwSocketError strerror ENOTCONN),
        sock := s1, world := w2 }
    else
      match s2.m_timeoutHandler with
      | some th =>
        { result := Except.ok rcv.ret.toNat,
          sock := { s2 with m_timeoutHandler := some th.resetTimeOut }, world := w2 }
      | none => { result := Except.ok rcv.ret.toNat, sock := s2, world := w2 }

/-- The method `posixSocket::receive(buffer)`; the value is the string assigned
to `buffer`, and `bufferSize` is `sizeof(m_buffer)`. -/
def posixSocket.receive {σ : Type} (strerror : Int → String) (bufferSize : Nat)
    (s : posixSocket σ) (w : World) (sel : Int × Int) (rcv : RecvRet) :
    Outcome σ (List UInt8) :=
  let o := posixSocket.receiveRaw strerror s w sel rcv bufferSize
  match o.result with
  | Except.error e => { result := Except.error e, sock := o.sock, world := o.world }
  | Except.ok size =>
    { result := Except.ok (o.sock.m_buffer.take size), sock := o.sock, world := o.world }

/-- The method `posixSocket::getStatus()`. -/
def posixSocket.getStatus {σ : Type} (s : posixSocket σ) : Nat :=
  s.m_status

/-! ## Disconnect and peer identity -/

/-- The method `posixSocket::disconnect()`. -/
def posixSocket.disconnect {σ : Type} (s : posixSocket σ) (w : World) : posixSocket σ × World :=
  if s.m_desc ≠ -1 then
    ({ s with m_desc := -1 }, (w.shutdown s.m_desc).close s.m_desc)
  else
    (s, w)

/-- The method `posixSocket::isConnected()`; `peek` is the return value of
`::recv(m_desc, &buff, 1, MSG_PEEK)`. -/
def posixSocket.isConnected {σ : Type} (s : posixSocket σ) (peek : Int) : Bool :=
  if s.m_desc = -1 then false else peek != 0

/-- The name services of the platform: whether `getaddrinfo` with
`AI_NUMERICHOST` accepts a string, the address `getpeername` stores for a
handle, and the host name `getnameinfo` (with `NI_NAMEREQD`) finds for an
address (`none` when it returns non-zero). -/
structure NameService where
  numericHost : String → Bool
  getpeername : Int → List UInt8
  getnameinfo : List UInt8 → Option String

/-- The static function `isNumericAddress(address)`. -/
def isNumericAddress (ns : NameService) (w : World) (address : String) : Bool × World :=
  if ns.numericHost address then
    (true, (w.log (Syscall.getaddrinfo address)).log Syscall.freeaddrinfo)
  else
    (false, w.log (Syscall.getaddrinfo address))

/-- The method `posixSocket::getPeerName()`. -/
def posixSocket.getPeerName {σ : Type} (ns : NameService) (s : posixSocket σ) (w : World) :
    String × World :=
  let peer := ns.getpeername s.m_desc
  let w1 := w.log (Syscall.getpeername s.m_desc)
  let n := isNumericAddress ns w1 s.m_serverAddress
  if n.1 then
    let w2 := n.2.log Syscall.getnameinfo
    match ns.getnameinfo peer with
    | some host => (host, w2)
    | none => (s.m_serverAddress, w2)
  else
    (s.m_serverAddress, n.2)

/-! ## Connect -/

/-- Return value of `::socket`: a new descriptor, or -1 with an error code. -/
inductive SocketRet where
  | fd (n : Nat)
  | failed (err : Int)

/-- One node of the list returned by `getaddrinfo`, given by what the
operating system answers to the calls issued for it: the result of `::socket`,
the return value and error code of `::connect`, and the return values and error
codes of the successive `::select` calls on the new handle. -/
structure Candidate where
  socketRet : SocketRet
  connectRet : Int × Int
  selectRets : List (Int × Int)

/-- The system call `::socket` when it succeeds with descriptor `fd`. -/
def World.socket (w : World) (fd : Int) : World :=
  { w with handles := fd :: w.handles, trace := w.trace ++ [Syscall.socket fd] }

/-- The system call `::connect(fd, ...)`; `r` is its return value and error code. -/
def World.connect (w : World) (fd : Int) (r : Int × Int) : World :=
  (w.setErrno r.1 r.2).log (Syscall.connect fd)

/-- The statement `::fcntl(fd, F_SETFL, ::fcntl(fd, F_GETFL) | O_NONBLOCK)`. -/
def World.setNonBlocking (w : World) (fd : Int) : World :=
  (w.log (Syscall.fcntl fd)).log (Syscall.fcntl fd)

/-- The `do ... while (true)` loop of `posixSocket::connect` that waits for the
pending connection on `sock`.  The result is the flag `connected`; it is `none`
when the loop is still running after the last scripted `select`. -/
def posixSocket.pollLoop {σ : Type} (sock : Int) :
    timeoutHandler σ → World → List (Int × Int) → Option (Bool × timeoutHandler σ × World)
  | _, _, [] => none
  | th, w, r :: rest =>
    let w1 := w.select sock r
    if r.1 > 0 then
      some (true, th, w1)
    else if r.1 < -1 then
      if w1.errno ≠ EINTR then
        some (false, th, w1)
      else
        posixSocket.pollLoop sock th (w1.log Syscall.sched_yield) rest
    else if r.1 = 0 then
      let a := th.isTimeOut
      if a.1 then
        let b := a.2.handleTimeOut
        if !b.1 then
          some (false, b.2, w1)
        else
          posixSocket.pollLoop sock b.2.resetTimeOut (w1.log Syscall.sched_yield) rest
      else
        posixSocket.pollLoop sock a.2 (w1.log Syscall.sched_yield) rest
    else
      posixSocket.pollLoop sock th (w1.log Syscall.sched_yield) rest

/-- The `switch (errno)` after a failed non-blocking `::connect`: the cases
that mean "connection in progress". -/
def connectionInProgress (err : Int) : Bool :=
  err == 0 || err == EINPROGRESS || err == EINTR || err == EAGAIN

/-- The body of the `for` loop of `posixSocket::connect` for one candidate:
the value of `sock` at the end of the iteration (-1 when the candidate
failed). -/
def posixSocket.connectCandidate {σ : Type} (s : posixSocket σ) (w : World) (c : Candidate) :
    Option (Int × posixSocket σ × World) :=
  match c.socketRet with
  | SocketRet.failed e =>
    some (-1, s, { w with errno := e, trace := w.trace ++ [Syscall.socket (-1)] })
  | SocketRet.fd n =>
    let sock : Int := n
    let w1 := w.socket sock
    match s.m_timeoutHandler with
    | some th =>
      let w2 := (w1.setNonBlocking sock).connect sock c.connectRet
      if c.connectRet.1 < 0 then
        if connectionInProgress w2.errno then
          match posixSocket.pollLoop sock th.resetTimeOut w2 c.selectRets with
          | none => none
          | some (connected, th1, w3) =>
            if !connected then
              some (-1, { s with m_timeoutHandler := some th1 }, w3.close sock)
            else
              some (sock, { s with m_timeoutHandler := some th1 }, w3)
        else
          some (-1, s, w2.close sock)
      else
        some (sock, s, w2)
    | none =>
      let w2 := w1.connect sock c.connectRet
      if c.connectRet.1 < 0 then
        some (-1, s, w2.close sock)
      else
        some (sock, s, w2)

/-- The loop `for ( ; sock == -1 && res != NULL ; res = res->ai_next)`. -/
def posixSocket.connectLoop {σ : Type} :
    posixSocket σ → World → List Candidate → Option (Int × posixSocket σ × World)
  | s, w, [] => some (-1, s, w)
  | s, w, c :: rest =>
    match posixSocket.connectCandidate s w c with
    | none => none
    | some (sock, s1, w1) =>
      if sock = -1 then posixSocket.connectLoop s1 w1 rest else some (sock, s1, w1)

/-- The statements of `posixSocket::connect` that follow the loop. -/
def posixSocket.connectFinish {σ : Type} (strerror : Int → String)
    (r : Int × posixSocket σ × World) : Outcome σ Unit :=
  let w := r.2.2.log Syscall.freeaddrinfo
  if r.1 = -1 then
    { result := Except.error (exception.connection_error "Error while connecting socket."
        (some (posixSocket.throwSocketError strerror w.errno))),
      sock := r.2.1, world := w }
  else
    { result := Except.ok (), sock := { r.2.1 with m_desc := r.1 },
      world := w.setNonBlocking r.1 }

/-- The first statement of `posixSocket::connect`: close the current
connection, if any. -/
def posixSocket.closeCurrent {σ : Type} (s : posixSocket σ) (w : World) : posixSocket σ × World :=
  if s.m_desc ≠ -1 then ({ s with m_desc := -1 }, w.close s.m_desc) else (s, w)

/-- The method `posixSocket::connect(address, port)`.  `res0` is the answer of
`getaddrinfo`: `none` when it returns non-zero, the list of candidates
otherwise.  The result is `none` when a poll loop did not end within the
scripted `select` results. -/
def posixSocket.connect {σ : Type} (strerror : Int → String) (s : posixSocket σ) (w : World)
    (address : String) (_port : Nat) (res0 : Option (List Candidate)) : Option (Outcome σ Unit) :=
  let p := posixSocket.closeCurrent s w
  let w1 := p.2.log (Syscall.getaddrinfo address)
  match res0 with
  | none =>
    some { result := Except.error (exception.connection_error "Cannot resolve address." none),
           sock := p.1, world := w1 }
  | some cands =>
    match posixSocket.connectLoop { p.1 with m_serverAddress := address } w1 cands with
    | none => none
    | some r => some (posixSocket.connectFinish strerror r)


/-! ## The MIME message model used by `MDNHelper`

`MDNHelper.cpp` builds and inspects messages through the classes `message`,
`header`, `headerField`, `contentTypeField`, `mediaType`, `mailbox`, ..., none
of which is among the source files.  They are modelled as plain records: a
header is the ordered list of its fields, an accessor such as
`hdr->ContentType()` finds the field of that name and, on a header that can be
modified, creates it when it is absent, and a value or parameter that was set
is the one read back.  Names are compared as written; all names used by
`MDNHelper` are literal constants. -/

/-- Modelled from the spec: the class `mailbox` is missing; a mailbox is a
display name and an e-mail address (`getEmail`). -/
structure mailbox where
  name : String
  email : String
  deriving DecidableEq, Repr

/-- Modelled from the spec: the class `mediaType` is missing; `getType` and
`getSubType` are the two projections. -/
structure mediaType where
  type : String
  subType : String
  deriving DecidableEq, Repr

/-- Modelled from the spec: the getter `mediaType::getType`. -/
def mediaType.getType (m : mediaType) : String := m.type

/-- Modelled from the spec: the getter `mediaType::getSubType`. -/
def mediaType.getSubType (m : mediaType) : String := m.subType

/-- Modelled from the spec: the classes `charset`, `disposition` and `datetime`
are missing; `MDNHelper` only stores values of these types, which are kept as
their text. -/
abbrev charset := String

/-- Modelled from the spec: see `charset`. -/
abbrev disposition := String

/-- Modelled from the spec: see `charset`. -/
abbrev datetime := String

/-- Modelled from the spec: the value classes of header fields are missing; a
value is one of the kinds that `MDNHelper` stores.  `unset` is the value of a
field that was created and not assigned. -/
inductive fieldValue where
  | unset
  | ofString (s : String)
  | ofMediaType (m : mediaType)
  | ofMailbox (m : mailbox)
  | ofAddressList (l : List mailbox)
  | ofText (words : List String)
  | ofDatetime (d : datetime)
  | ofDisposition (d : disposition)
  deriving DecidableEq, Repr

/-- Modelled from the spec: the class `parameter` of a parameterized header
field is missing; a parameter is a name and a value. -/
structure parameter where
  name : String
  value : String
  deriving DecidableEq, Repr

/-- Modelled from the spec: the classes `headerField`, `defaultField` and
`contentTypeField` are missing; a field is a name, a value and parameters. -/
structure headerField where
  name : String
  value : fieldValue
  parameters : List parameter
  deriving DecidableEq, Repr

/-- Modelled from the spec: the class `header` is missing; a header is the
list of its fields in order. -/
structure header where
  fields : List headerField
  deriving DecidableEq, Repr

/-- Modelled from the spec: the class `bodyPart` is missing; a part is a header
and the contents of its body. -/
structure bodyPart where
  header : header
  contents : String
  deriving DecidableEq, Repr

/-- Modelled from the spec: the class `message` is missing; a message is a
header and the parts of its body. -/
structure message where
  header : header
  parts : List bodyPart
  deriving DecidableEq, Repr

/-- Modelled from the spec: the class `sendableMDNInfos` is missing; it holds
the message for which a notification is due (`getMessage`) and the mailbox to
notify (`getRecipient`). -/
structure sendableMDNInfos where
  getMessage : message
  getRecipient : mailbox
  deriving DecidableEq, Repr

/-- Modelled from the spec: the class `receivedMDNInfos` is missing; it is
constructed from the notification message. -/
structure receivedMDNInfos where
  msg : message
  deriving DecidableEq, Repr

/-- The exception classes thrown by `MDNHelper`. -/
inductive exceptions where
  | invalid_argument
  deriving DecidableEq, Repr

/-! ### Constants of `vmime/constants.hpp` and `vmime/base.hpp` -/

/-- Modelled from the spec: the constant `fields::CONTENT_TYPE`. -/
def fields.CONTENT_TYPE : String := "Content-Type"
/-- Modelled from the spec: the constant `fields::CONTENT_DISPOSITION`. -/
def fields.CONTENT_DISPOSITION : String := "Content-Disposition"
/-- Modelled from the spec: the constant `fields::DISPOSITION`. -/
def fields.DISPOSITION : String := "Disposition"
/-- Modelled from the spec: the constant `fields::TO`. -/
def fields.TO : String := "To"
/-- Modelled from the spec: the constant `fields::FROM`. -/
def fields.FROM : String := "From"
/-- Modelled from the spec: the constant `fields::SUBJECT`. -/
def fields.SUBJECT : String := "Subject"
/-- Modelled from the spec: the constant `fields::DATE`. -/
def fields.DATE : String := "Date"
/-- Modelled from the spec: the constant `fields::MIME_VERSION`. -/
def fields.MIME_VERSION : String := "Mime-Version"
/-- Modelled from the spec: the constant `fields::MESSAGE_ID`. -/
def fields.MESSAGE_ID : String := "Message-Id"
/-- Modelled from the spec: the constant `fields::ORIGINAL_MESSAGE_ID`. -/
def fields.ORIGINAL_MESSAGE_ID : String := "Original-Message-ID"
/-- Modelled from the spec: the constant `fields::REPORTING_UA`. -/
def fields.REPORTING_UA : String := "Reporting-UA"
/-- Modelled from the spec: the constant `fields::FINAL_RECIPIENT`. -/
def fields.FINAL_RECIPIENT : String := "Final-Recipient"
/-- Modelled from the spec: the constant `mediaTypes::MULTIPART`. -/
def mediaTypes.MULTIPART : String := "multipart"
/-- Modelled from the spec: the constant `mediaTypes::MULTIPART_REPORT`. -/
def mediaTypes.MULTIPART_REPORT : String := "report"
/-- Modelled from the spec: the constant `mediaTypes::TEXT`. -/
def mediaTypes.TEXT : String := "text"
/-- Modelled from the spec: the constant `mediaTypes::TEXT_PLAIN`. -/
def mediaTypes.TEXT_PLAIN : String := "plain"
/-- Modelled from the spec: the constant `mediaTypes::TEXT_RFC822_HEADERS`. -/
def mediaTypes.TEXT_RFC822_HEADERS : String := "rfc822-headers"
/-- Modelled from the spec: the constant `mediaTypes::MESSAGE`. -/
def mediaTypes.MESSAGE : String := "message"
/-- Modelled from the spec: the constant
`mediaTypes::MESSAGE_DISPOSITION_NOTIFICATION`. -/
def mediaTypes.MESSAGE_DISPOSITION_NOTIFICATION : String := "disposition-notification"
/-- Modelled from the spec: the constant `contentDispositionTypes::INLINE`. -/
def contentDispositionTypes.INLINE : String := "inline"
/-- Modelled from the spec: the constant `SUPPORTED_MIME_VERSION`. -/
def SUPPORTED_MIME_VERSION : String := "1.0"

/-! ### Accessors of the header classes -/

/-- Modelled from the spec: `vmime::create <message>()`, a message with an
empty header and no parts. -/
def message.create : message :=
  { header := { fields := [] }, parts := [] }

/-- Modelled from the spec: `vmime::create <bodyPart>()`. -/
def bodyPart.create : bodyPart :=
  { header := { fields := [] }, contents := "" }

/-- Modelled from the spec: `headerFieldFactory::create(name)`, a new field
without value. -/
def headerFieldFactory.create (name : String) : headerField :=
  { name := name, value := fieldValue.unset, parameters := [] }

/-- Modelled from the spec: `header::hasField(name)`. -/
def header.hasField (h : header) (name : String) : Bool :=
  h.fields.any (fun f => f.name == name)

/-- Modelled from the spec: `header::findField(name)`, the first field of that
name. -/
def header.findField (h : header) (name : String) : Option headerField :=
  h.fields.find? (fun f => f.name == name)

/-- Modelled from the spec: `header::getField(name)` and the accessors built
on it (`ContentType()`, `Disposition()`, ...): the field of that name, created
without value when the header has none. -/
def header.getField (h : header) (name : String) : headerField :=
  (h.findField name).getD (headerFieldFactory.create name)

/-- Modelled from the spec: `header::appendField(field)`. -/
def header.appendField (h : header) (f : headerField) : header :=
  { fields := h.fields ++ [f] }

/-- Modelled from the spec: the effect on the header of changing, through the
reference returned by an accessor, the field named `f.name`: the field of that
name is replaced by `f`, or `f` is appended when the accessor created it. -/
def header.store (h : header) (f : headerField) : header :=
  if h.hasField f.name then
    { fields := h.fields.map (fun g => if g.name == f.name then f else g) }
  else
    h.appendField f

/-- Modelled from the spec: `headerField::setValue(value)`. -/
def headerField.setValue (f : headerField) (v : fieldValue) : headerField :=
  { f with value := v }

/-- Modelled from the spec: `parameterizedHeaderField::hasParameter(name)`. -/
def headerField.hasParameter (f : headerField) (name : String) : Bool :=
  f.parameters.any (fun q => q.name == name)

/-- Modelled from the spec: the value of the parameter `name`, `none` where
the C++ accessor throws `no_such_parameter`. -/
def headerField.findParameter (f : headerField) (name : String) : Option String :=
  (f.parameters.find? (fun q => q.name == name)).map (fun q => q.value)

/-- Modelled from the spec: setting the parameter `name`, which is created when
the field does not have it. -/
def headerField.setParameter (f : headerField) (name value : String) : headerField :=
  if f.hasParameter name then
    { f with parameters :=
        f.parameters.map (fun q => if q.name == name then { q with value := value } else q) }
  else
    { f with parameters := f.parameters ++ [{ name := name, value := value }] }

/-- Modelled from the spec: `contentTypeField::getValue()`, the media type of
the field; a field without value holds the default media type. -/
def headerField.getMediaType (f : headerField) : mediaType :=
  match f.value with
  | fieldValue.ofMediaType m => m
  | _ => { type := "application", subType := "octet-stream" }

/-- Modelled from the spec: `contentTypeField::setReportType(value)`. -/
def headerField.setReportType (f : headerField) (value : String) : headerField :=
  f.setParameter "report-type" value

/-- Modelled from the spec: `contentTypeField::getReportType()`. -/
def headerField.getReportType (f : headerField) : Option String :=
  f.findParameter "report-type"

/-- Modelled from the spec: `contentTypeField::setCharset(ch)`. -/
def headerField.setCharset (f : headerField) (ch : charset) : headerField :=
  f.setParameter "charset" ch

/-- Modelled from the spec: `addressList::appendAddress` on the value of a
field. -/
def fieldValue.appendAddress (v : fieldValue) (m : mailbox) : fieldValue :=
  match v with
  | fieldValue.ofAddressList l => fieldValue.ofAddressList (l ++ [m])
  | _ => fieldValue.ofAddressList [m]

/-- Modelled from the spec: `text::appendWord` on the value of a field. -/
def fieldValue.appendWord (v : fieldValue) (w : String) : fieldValue :=
  match v with
  | fieldValue.ofText l => fieldValue.ofText (l ++ [w])
  | _ => fieldValue.ofText [w]

/-! ## MDNHelper (`src/mdn/MDNHelper.cpp`)

`generate` stands for `header::generate`, which writes a header as text, and
`now` for the value of `datetime::now()`; both are outside the source files. -/

/-- The method `MDNHelper::isMDN(msg)`. -/
def MDNHelper.isMDN (msg : message) : Bool :=
  let hdr := msg.header
  if hdr.hasField fields.CONTENT_TYPE then
    let ctf := hdr.getField fields.CONTENT_TYPE
    if ctf.getMediaType.getType == mediaTypes.MULTIPART &&
        ctf.getMediaType.getSubType == mediaTypes.MULTIPART_REPORT then
      if ctf.hasParameter "report-type" &&
          ctf.getReportType == some "disposition-notification" then
        true
      else
        false
    else
      false
  else
    false

/-- The method `MDNHelper::getReceivedMDN(msg)`. -/
def MDNHelper.getReceivedMDN (msg : message) : Except exceptions receivedMDNInfos :=
  if !MDNHelper.isMDN msg then
    Except.error exceptions.invalid_argument
  else
    Except.ok { msg := msg }

/-- The method `MDNHelper::createFirstMDNPart(mdnInfos, text, ch)`. -/
def MDNHelper.createFirstMDNPart (_mdnInfos : sendableMDNInfos) (text : String)
    (ch : charset) : bodyPart :=
  let part := bodyPart.create
  let hdr := part.header
  let hdr := hdr.store ((hdr.getField fields.CONTENT_TYPE).setValue
    (fieldValue.ofMediaType { type := mediaTypes.TEXT, subType := mediaTypes.TEXT_PLAIN }))
  let hdr := hdr.store ((hdr.getField fields.CONTENT_TYPE).setCharset ch)
  { part with header := hdr, contents := text }

/-- The `for` loop of `createSecondMDNPart` that appends the product names to
`ruaText`; `i` is the loop counter. -/
def MDNHelper.appendProducts : String → Nat → List String → String
  | ruaText, _, [] => ruaText
  | ruaText, i, product :: rest =>
    MDNHelper.appendProducts ((ruaText ++ (if i = 0 then "; " else ", ")) ++ product)
      (i + 1) rest

/-- The method `MDNHelper::createSecondMDNPart(mdnInfos, dispo, reportingUA,
reportingUAProducts)`.  The field `fr` (Final-Recipient) is created and given a
value but, as in the source, is not appended to `fields`. -/
def MDNHelper.createSecondMDNPart (generate : header → String) (mdnInfos : sendableMDNInfos)
    (dispo : disposition) (reportingUA : String) (reportingUAProducts : List String) :
    bodyPart :=
  let part := bodyPart.create
  let hdr := part.header
  let hdr := hdr.store ((hdr.getField fields.CONTENT_DISPOSITION).setValue
    (fieldValue.ofString contentDispositionTypes.INLINE))
  let hdr := hdr.store ((hdr.getField fields.CONTENT_TYPE).setValue
    (fieldValue.ofMediaType { type := mediaTypes.MESSAGE,
                              subType := mediaTypes.MESSAGE_DISPOSITION_NOTIFICATION }))
  let fields0 : header := { fields := [] }
  let fields1 :=
    if !(reportingUA == "") then
      let ruaText := MDNHelper.appendProducts reportingUA 0 reportingUAProducts
      let rua := (headerFieldFactory.create fields.REPORTING_UA).setValue
        (fieldValue.ofString ruaText)
      fields0.appendField rua
    else
      fields0
  let _fr := (headerFieldFactory.create fields.FINAL_RECIPIENT).setValue
    (fieldValue.ofString ("rfc822; " ++ mdnInfos.getRecipient.email))
  let fields2 :=
    if mdnInfos.getMessage.header.hasField fields.MESSAGE_ID then
      fields1.store ((fields1.getField fields.ORIGINAL_MESSAGE_ID).setValue
        (mdnInfos.getMessage.header.getField fields.MESSAGE_ID).value)
    else
      fields1
  let fields3 := fields2.store ((fields2.getField fields.DISPOSITION).setValue
    (fieldValue.ofDisposition dispo))
  { part with header := hdr, contents := generate fields3 }

/-- The method `MDNHelper::createThirdMDNPart(mdnInfos)`. -/
def MDNHelper.createThirdMDNPart (generate : header → String) (mdnInfos : sendableMDNInfos) :
    bodyPart :=
  let part := bodyPart.create
  let hdr := part.header
  let hdr := hdr.store ((hdr.getField fields.CONTENT_DISPOSITION).setValue
    (fieldValue.ofString contentDispositionTypes.INLINE))
  let hdr := hdr.store ((hdr.getField fields.CONTENT_TYPE).setValue
    (fieldValue.ofMediaType { type := mediaTypes.TEXT,
                              subType := mediaTypes.TEXT_RFC822_HEADERS }))
  { part with header := hdr, contents := generate mdnInfos.getMessage.header }

/-- The method `MDNHelper::buildMDN(mdnInfos, text, ch, expeditor, dispo,
reportingUA, reportingUAProducts)`. -/
def MDNHelper.buildMDN (generate : header → String) (now : datetime)
    (mdnInfos : sendableMDNInfos) (text : String) (ch : charset) (expeditor : mailbox)
    (dispo : disposition) (reportingUA : String) (reportingUAProducts : List String) :
    message :=
  let msg := message.create
  let hdr := msg.header
  let hdr := hdr.store ((hdr.getField fields.CONTENT_TYPE).setValue
    (fieldValue.ofMediaType { type := mediaTypes.MULTIPART,
                              subType := mediaTypes.MULTIPART_REPORT }))
  let hdr := hdr.store ((hdr.getField fields.CONTENT_TYPE).setReportType
    "disosition-notification")
  let hdr := hdr.store ((hdr.getField fields.DISPOSITION).setValue
    (fieldValue.ofDisposition dispo))
  let hdr := hdr.store ((hdr.getField fields.TO).setValue
    ((hdr.getField fields.TO).value.appendAddress mdnInfos.getRecipient))
  let hdr := hdr.store ((hdr.getField fields.FROM).setValue (fieldValue.ofMailbox expeditor))
  let hdr := hdr.store ((hdr.getField fields.SUBJECT).setValue
    ((hdr.getField fields.SUBJECT).value.appendWord "Disposition notification"))
  let hdr := hdr.store ((hdr.getField fields.DATE).setValue (fieldValue.ofDatetime now))
  let hdr := hdr.store ((hdr.getField fields.MIME_VERSION).setValue
    (fieldValue.ofString SUPPORTED_MIME_VERSION))
  { header := hdr,
    parts := msg.parts ++ [MDNHelper.createFirstMDNPart mdnInfos text ch] ++
      [MDNHelper.createSecondMDNPart generate mdnInfos dispo reportingUA reportingUAProducts] ++
      [MDNHelper.createThirdMDNPart generate mdnInfos] }

/-! ## Vocabulary of the statements about `connect` -/

/-- Handle allocation or `::connect` fails for the candidate: `::socket` fails,
or `::connect` returns a negative value, which in bounded-poll mode
(`polling`) is not one of the "connection in progress" codes. -/
def Candidate.refused (polling : Bool) (c : Candidate) : Bool :=
  match c.socketRet with
  | SocketRet.failed _ => true
  | SocketRet.fd _ =>
    decide (c.connectRet.1 < 0) && (!polling || !connectionInProgress c.connectRet.2)

/-- The error code of the call that failed for a refused candidate: that of
`::socket` when allocation failed, that of `::connect` otherwise. -/
def Candidate.failureErrno (c : Candidate) : Int :=
  match c.socketRet with
  | SocketRet.failed e => e
  | SocketRet.fd _ => c.connectRet.2

/-! ## Concrete environments used to instantiate the theorems -/

/-- A transport that reports would-block on its first two calls and afterwards
accepts at most two bytes per call. -/
def exampleTransport : Transport :=
  fun i size => if i < 2 then (-1, EAGAIN) else (((min 2 size : Nat) : Int), 0)

/-- A world with one open handle, 5. -/
def exampleWorld : World :=
  { errno := 0, handles := [5], trace := [], sends := 0, sent := [] }

/-- A socket without timeout handler that holds handle 5. -/
def exampleSocket : posixSocket Nat :=
  { m_timeoutHandler := none, m_desc := 5, m_status := 0, m_serverAddress := "192.0.2.1",
    m_buffer := [] }

/-- A timeout handler whose timer has always elapsed and which never agrees to
continue; its state counts the calls made to it. -/
def impatientHandler : timeoutHandler Nat :=
  { state := 0,
    isTimeOutFn := fun n => (true, n + 1),
    resetTimeOutFn := fun n => n + 1,
    handleTimeOutFn := fun n => (false, n + 1) }

/-- A socket bound to `impatientHandler` that holds no handle. -/
def examplePollingSocket : posixSocket Nat :=
  posixSocket.create (some impatientHandler)

/-- A candidate for which `::socket` fails with `EMFILE`. -/
def candidateNoHandle : Candidate :=
  { socketRet := SocketRet.failed EMFILE, connectRet := (0, 0), selectRets := [] }

/-- A candidate that gets handle 7 and whose `::connect` is refused. -/
def candidateRefused : Candidate :=
  { socketRet := SocketRet.fd 7, connectRet := (-1, ECONNREFUSED), selectRets := [] }

/-- A candidate that gets handle 8 and whose `::connect` succeeds at once. -/
def candidateAccepting : Candidate :=
  { socketRet := SocketRet.fd 8, connectRet := (0, 0), selectRets := [] }

/-- A candidate that gets handle 9, whose non-blocking `::connect` is pending
and on which every `::select` expires without activity. -/
def candidateSilent : Candidate :=
  { socketRet := SocketRet.fd 9, connectRet := (-1, EINPROGRESS),
    selectRets := [(0, 0), (0, 0), (0, 0)] }

/-- A candidate that gets handle 10, whose non-blocking `::connect` is pending
and becomes writable on the second `::select`. -/
def candidateEventually : Candidate :=
  { socketRet := SocketRet.fd 10, connectRet := (-1, EINPROGRESS),
    selectRets := [(0, 0), (1, 0)] }

/-- A timeout handler whose timer never elapses. -/
def patientHandler : timeoutHandler Nat :=
  { state := 0,
    isTimeOutFn := fun n => (false, n),
    resetTimeOutFn := fun n => n,
    handleTimeOutFn := fun n => (true, n) }

/-- A socket bound to `patientHandler` that holds handle 5. -/
def exampleReconnectingSocket : posixSocket Nat :=
  { m_timeoutHandler := some patientHandler, m_desc := 5, m_status := 0,
    m_serverAddress := "", m_buffer := [] }

/-- Name services that know one numeric address and its host name. -/
def exampleNameService : NameService :=
  { numericHost := fun a => a == "192.0.2.1",
    getpeername := fun _ => [192, 0, 2, 1],
    getnameinfo := fun a => if a = [192, 0, 2, 1] then some "mail.example.org" else none }

/-- The socket `exampleSocket` after a `receive` that found no data: `select`
expired and `recv` reported `EAGAIN`. -/
def exampleStalledSocket : posixSocket Nat :=
  (posixSocket.receive (fun _ => "") 65536 exampleSocket exampleWorld (0, 0)
    { ret := -1, err := EAGAIN, data := [] }).sock

/-- The world after the `receive` that produced `exampleStalledSocket`. -/
def exampleStalledWorld : World :=
  (posixSocket.receive (fun _ => "") 65536 exampleSocket exampleWorld (0, 0)
    { ret := -1, err := EAGAIN, data := [] }).world

/-- A candidate that gets handle 11, whose non-blocking `::connect` is pending,
on which the first `::select` fails with `ENOMEM` and the second one reports
the handle ready. -/
def candidateSelectError : Candidate :=
  { socketRet := SocketRet.fd 11, connectRet := (-1, EINPROGRESS),
    selectRets := [(-1, ENOMEM), (1, 0)] }

/-- A header writer that lists the names of the fields. -/
def exampleGenerate (h : header) : String :=
  String.intercalate ", " (h.fields.map (fun f => f.name))

/-- A message that asks for a disposition notification. -/
def exampleOriginalMessage : message :=
  { header := { fields := [
      { name := fields.MESSAGE_ID, value := fieldValue.ofString "<1@example.org>",
        parameters := [] },
      { name := "Disposition-Notification-To",
        value := fieldValue.ofAddressList [{ name := "Ann", email := "ann@example.org" }],
        parameters := [] }] },
    parts := [] }

/-- The notification due for `exampleOriginalMessage`. -/
def exampleMDNInfos : sendableMDNInfos :=
  { getMessage := exampleOriginalMessage,
    getRecipient := { name := "Ann", email := "ann@example.org" } }

/-- The message `buildMDN` makes for `exampleMDNInfos`. -/
def exampleBuiltMDN : message :=
  MDNHelper.buildMDN exampleGenerate "Sat, 31 Oct 2026 08:00:00 +0000" exampleMDNInfos
    "Your message was displayed." "utf-8" { name := "Bob", email := "bob@example.org" }
    "manual-action/MDN-sent-manually; displayed" "ExampleUA" ["1.0"]

/-! ## Theorems -/

theorem World.send_fst (w : World) (t : Transport) (fd : Int) (buffer : List UInt8)
    (off size : Nat) : (w.send t fd buffer off size).1 = (t w.sends size).1 := rfl

theorem World.send_sends (w : World) (t : Transport) (fd : Int) (buffer : List UInt8)
    (off size : Nat) : (w.send t fd buffer off size).2.sends = w.sends + 1 := rfl

theorem World.send_sent (w : World) (t : Transport) (fd : Int) (buffer : List UInt8)
    (off size : Nat) : (w.send t fd buffer off size).2.sent =
      if (t w.sends size).1 < 0 then w.sent
      else w.sent ++ ((buffer.drop off).take size).take (t w.sends size).1.toNat := rfl

theorem World.send_errno_of_neg (w : World) (t : Transport) (fd : Int) (buffer : List UInt8)
    (off size : Nat) (h : (t w.sends size).1 < 0) :
    (w.send t fd buffer off size).2.errno = (t w.sends size).2 := by
  simp [World.send, World.setErrno, h]

theorem sendLoop_flush (strerror : Int → String) (t : Transport) (fd : Int) (buffer : List UInt8)
    (k B : Nat)
    (ht : ∀ i size, 0 < size →
      ((t i size).1 < 0 ∧ IS_EAGAIN (t i size).2 = true) ∨
      (1 ≤ (t i size).1 ∧ (t i size).1 ≤ k ∧ (t i size).1 ≤ size))
    (hB : ∀ i size, B ≤ i → 0 < size → 0 ≤ (t i size).1) :
    ∀ (fuel off size : Nat) (w : World), off + size = buffer.length → size < 2 ^ 64 →
      size + (B - w.sends) ≤ fuel →
      ∃ w1, posixSocket.sendLoop strerror t fd buffer fuel off size w = some (Except.ok (), w1) ∧
        w1.sent = w.sent ++ buffer.drop off := by
  intro fuel
  induction fuel with
  | zero =>
    intro off size w hoff _ hm
    have hs : size = 0 := by omega
    subst hs
    refine ⟨w, ?_, ?_⟩
    · unfold posixSocket.sendLoop; simp
    · have : buffer.length ≤ off := by omega
      simp [List.drop_eq_nil_of_le this]
  | succ fuel ih =>
    intro off size w hoff hsz hm
    by_cases hs : size = 0
    · subst hs
      refine ⟨w, ?_, ?_⟩
      · unfold posixSocket.sendLoop; simp
      · have : buffer.length ≤ off := by omega
        simp [List.drop_eq_nil_of_le this]
    · have hpos : 0 < size := Nat.pos_of_ne_zero hs
      unfold posixSocket.sendLoop
      simp only [gt_iff_lt, hpos, if_true]
      rcases ht w.sends size hpos with ⟨hneg, hea⟩ | ⟨h1, _, hle⟩
      · have hlt : w.sends < B := by
          by_contra hge
          have := hB w.sends size (by omega) hpos
          omega
        have herr := World.send_errno_of_neg w t fd buffer off size hneg
        obtain ⟨w1, hrun, hsent⟩ := ih off size ((w.send t fd buffer off size).2.log Syscall.wait)
          hoff hsz (by simp only [World.log, World.send_sends]; omega)
        refine ⟨w1, ?_, ?_⟩
        · simp only [World.send_fst, hneg, if_true, herr, hea, Bool.not_true]
          simpa using hrun
        · rw [hsent]
          simp [World.log, World.send_sent, hneg]
      · have hnn : ¬ (t w.sends size).1 < 0 := by omega
        obtain ⟨r, hr⟩ : ∃ r : Nat, (t w.sends size).1 = (r : Int) :=
          ⟨(t w.sends size).1.toNat, by omega⟩
        have hr1 : 1 ≤ r := by omega
        have hr2 : r ≤ size := by omega
        have hsize : ((((size : Int) - (t w.sends size).1) % 2 ^ 64).toNat) = size - r := by
          rw [hr]
          have : ((size : Int) - (r : Int)) = ((size - r : Nat) : Int) := by omega
          rw [this]
          have h2 : (((size - r : Nat) : Int) % 2 ^ 64) = ((size - r : Nat) : Int) := by
            apply Int.emod_eq_of_lt <;> omega
          rw [h2]; simp
        obtain ⟨w1, hrun, hsent⟩ := ih (off + r) (size - r) (w.send t fd buffer off size).2
          (by omega) (by omega) (by simp only [World.send_sends]; omega)
        refine ⟨w1, ?_, ?_⟩
        · simp only [World.send_fst, hnn, if_false, hsize]
          rw [hr]; simpa using hrun
        · rw [hsent]
          simp only [World.send_sent, hnn, if_false, hr, Int.toNat_ofNat]
          have hlen : (buffer.drop off).length = size := by simp; omega
          rw [List.take_of_length_le (by omega : (buffer.drop off).length ≤ size)]
          have hr0 : ¬ ((r : Int) < 0) := by omega
          rw [if_neg hr0, List.append_assoc]
          have hdd : List.drop (off + r) buffer = List.drop r (List.drop off buffer) := by
            rw [List.drop_drop]
          rw [hdd, List.take_append_drop]


/-- C1: for every buffer and every transport whose writes each accept between 1
and `k` of the bytes offered, with would-block results only before call `B`,
the looping `send` returns normally for every sufficient number of loop
iterations, and the bytes the transport accepted during the call, in call
order, are exactly the buffer. -/
theorem send_transmits_buffer_exactly {σ : Type} (strerror : Int → String) (t : Transport)
    (k B : Nat) (s : posixSocket σ) (w : World) (buffer : List UInt8)
    (_hk : 1 ≤ k) (hlen : buffer.length < 2 ^ 64)
    (ht : ∀ i size, 0 < size →
      ((t i size).1 < 0 ∧ IS_EAGAIN (t i size).2 = true) ∨
      (1 ≤ (t i size).1 ∧ (t i size).1 ≤ k ∧ (t i size).1 ≤ size))
    (hB : ∀ i size, B ≤ i → 0 < size → 0 ≤ (t i size).1) :
    ∃ fuel0, ∀ fuel, fuel0 ≤ fuel →
      ∃ o, posixSocket.send strerror t fuel s w buffer = some o ∧
        o.result = Except.ok () ∧ o.world.sent = w.sent ++ buffer ∧
        o.world.sent.length = w.sent.length + buffer.length := by
  refine ⟨buffer.length + (B - w.sends), fun fuel hfuel => ?_⟩
  obtain ⟨w1, hrun, hsent⟩ := sendLoop_flush strerror t
    (({ s with m_status := clearWouldBlock s.m_status } : posixSocket σ).m_desc) buffer k B ht hB
    fuel 0 buffer.length w (by omega) hlen hfuel
  simp only [List.drop_zero] at hsent
  unfold posixSocket.send posixSocket.sendRaw
  simp only [hrun]
  cases hth : s.m_timeoutHandler with
  | none => exact ⟨_, rfl, rfl, hsent, by simp [hsent]⟩
  | some th => exact ⟨_, rfl, rfl, hsent, by simp [hsent]⟩

/-- C1, instantiated: five bytes through a transport that blocks twice and then
accepts two bytes per call. -/
theorem send_transmits_buffer_exactly_witness :
    ∃ fuel0, ∀ fuel, fuel0 ≤ fuel →
      ∃ o, posixSocket.send (fun _ => "") exampleTransport fuel exampleSocket exampleWorld
          [80, 73, 78, 71, 10] = some o ∧
        o.result = Except.ok () ∧ o.world.sent = exampleWorld.sent ++ [80, 73, 78, 71, 10] ∧
        o.world.sent.length = exampleWorld.sent.length + [80, 73, 78, 71, 10].length :=
  send_transmits_buffer_exactly (fun _ => "") exampleTransport 2 2 exampleSocket exampleWorld
    [80, 73, 78, 71, 10] (by decide) (by simp)
    (by
      intro i size hsize
      unfold exampleTransport
      by_cases h : i < 2
      · left; simp [h, IS_EAGAIN, EAGAIN]
      · right; simp only [h, if_false]; omega)
    (by
      intro i size hi _
      unfold exampleTransport
      have h : ¬ i < 2 := by omega
      simp only [h, if_false]; omega)

/-! ### Receive -/

theorem setWouldBlock_and (m : Nat) :
    setWouldBlock m &&& STATUS_WOULDBLOCK = STATUS_WOULDBLOCK := by
  unfold setWouldBlock STATUS_WOULDBLOCK
  apply Nat.eq_of_testBit_eq
  intro i
  simp only [Nat.testBit_and, Nat.testBit_or]
  cases h : Nat.testBit 1 i <;> simp

theorem noDataAvailable_of_not_elapsed {σ : Type} (strerror : Int → String) (s : posixSocket σ)
    (w : World) (hth : ∀ th, s.m_timeoutHandler = some th → th.isTimeOut.1 = false) :
    (posixSocket.noDataAvailable strerror s w).result = Except.ok 0 ∧
    (posixSocket.noDataAvailable strerror s w).sock.m_status = setWouldBlock s.m_status ∧
    (posixSocket.noDataAvailable strerror s w).sock.m_desc = s.m_desc ∧
    (posixSocket.noDataAvailable strerror s w).world = w := by
  unfold posixSocket.noDataAvailable
  cases h : s.m_timeoutHandler with
  | none => simp
  | some th => simp [hth th h]

/-- C2: on a connected socket, when `select` does not fail and the single
`recv` returns exactly 0, `receive` (and `receiveRaw`) throws the socket
exception of the taxonomy for `ENOTCONN`, with or without a timeout handler;
nothing is returned. -/
theorem receive_peer_shutdown_raises_not_connected {σ : Type} (strerror : Int → String)
    (bufferSize : Nat) (s : posixSocket σ) (w : World) (sel : Int × Int) (rcv : RecvRet)
    (_hconn : s.m_desc ≠ -1) (hsel : 0 ≤ sel.1) (hrcv : rcv.ret = 0) :
    (posixSocket.receive strerror bufferSize s w sel rcv).result =
        Except.error (exception.socket_exception "ENOTCONN: not connected") ∧
    (posixSocket.receiveRaw strerror s w sel rcv bufferSize).result =
        Except.error (posixSocket.throwSocketError strerror ENOTCONN) := by
  have hns : ¬ sel.1 < 0 := by omega
  have hraw : (posixSocket.receiveRaw strerror s w sel rcv bufferSize).result =
      Except.error (posixSocket.throwSocketError strerror ENOTCONN) := by
    unfold posixSocket.receiveRaw
    simp [hns, hrcv]
  refine ⟨?_, hraw⟩
  unfold posixSocket.receive
  simp only [hraw]
  rfl

/-- C2, instantiated: `select` reports the handle readable and `recv` returns 0. -/
theorem receive_peer_shutdown_raises_not_connected_witness :
    (posixSocket.receive (fun _ => "") 65536 exampleSocket exampleWorld (1, 0)
        { ret := 0, err := 0, data := [] }).result =
        Except.error (exception.socket_exception "ENOTCONN: not connected") ∧
    (posixSocket.receiveRaw (fun _ => "") exampleSocket exampleWorld (1, 0)
        { ret := 0, err := 0, data := [] } 65536).result =
        Except.error (posixSocket.throwSocketError (fun _ => "") ENOTCONN) :=
  receive_peer_shutdown_raises_not_connected (fun _ => "") 65536 exampleSocket exampleWorld (1, 0)
    { ret := 0, err := 0, data := [] } (by decide) (by decide) rfl

/-- C3: on a connected socket whose timeout handler is absent or has not
elapsed, when `select` is inconclusive (it was interrupted, or it returned
without error and the `recv` then reports would-block or interrupted),
`receive` returns the empty string without throwing, `STATUS_WOULDBLOCK` is set
in the status, and the handle stored in the socket and the open handles are
unchanged. -/
theorem receive_no_data_sets_would_block {σ : Type} (strerror : Int → String)
    (bufferSize : Nat) (s : posixSocket σ) (w : World) (sel : Int × Int) (rcv : RecvRet)
    (_hconn : s.m_desc ≠ -1)
    (hth : ∀ th, s.m_timeoutHandler = some th → th.isTimeOut.1 = false)
    (hsel : sel.1 < 0 → IS_EAGAIN sel.2 = true)
    (hrcv : 0 ≤ sel.1 → rcv.ret < 0 ∧ IS_EAGAIN rcv.err = true) :
    (posixSocket.receive strerror bufferSize s w sel rcv).result = Except.ok [] ∧
    (posixSocket.receive strerror bufferSize s w sel rcv).sock.getStatus &&& STATUS_WOULDBLOCK
      = STATUS_WOULDBLOCK ∧
    (posixSocket.receive strerror bufferSize s w sel rcv).sock.m_desc = s.m_desc ∧
    (posixSocket.receive strerror bufferSize s w sel rcv).world.handles = w.handles := by
  have key : ∃ w1, w1.handles = w.handles ∧
      posixSocket.receiveRaw strerror s w sel rcv bufferSize =
        posixSocket.noDataAvailable strerror { s with m_status := clearWouldBlock s.m_status }
          w1 := by
    by_cases hneg : sel.1 < 0
    · refine ⟨w.select s.m_desc sel, ?_, ?_⟩
      · simp [World.select, World.setErrno, World.log, hneg]
      · unfold posixSocket.receiveRaw
        have he : (w.select s.m_desc sel).errno = sel.2 := by
          simp [World.select, World.setErrno, World.log, hneg]
        simp [hneg, he, hsel hneg]
    · obtain ⟨hr, hre⟩ := hrcv (by omega)
      refine ⟨(w.select s.m_desc sel).recv s.m_desc rcv, ?_, ?_⟩
      · simp [World.select, World.recv, World.setErrno, World.log, hneg, hr]
      · unfold posixSocket.receiveRaw
        have he : ((w.select s.m_desc sel).recv s.m_desc rcv).errno = rcv.err := by
          simp [World.recv, World.setErrno, World.log, hr]
        simp [hneg, hr, he, hre]
  obtain ⟨w1, hw1, hraw⟩ := key
  obtain ⟨h1, h2, h3, h4⟩ := noDataAvailable_of_not_elapsed strerror
    { s with m_status := clearWouldBlock s.m_status } w1 hth
  unfold posixSocket.receive
  simp only [hraw, h1]
  refine ⟨by simp, ?_, h3, ?_⟩
  · simp only [posixSocket.getStatus, h2]
    exact setWouldBlock_and _
  · rw [h4, hw1]

/-- C3, instantiated: `select` times out (returns 0) and `recv` reports
`EAGAIN` on a socket without timeout handler. -/
theorem receive_no_data_sets_would_block_witness :
    (posixSocket.receive (fun _ => "") 65536 exampleSocket exampleWorld (0, 0)
        { ret := -1, err := EAGAIN, data := [] }).result = Except.ok [] ∧
    (posixSocket.receive (fun _ => "") 65536 exampleSocket exampleWorld (0, 0)
        { ret := -1, err := EAGAIN, data := [] }).sock.getStatus &&& STATUS_WOULDBLOCK
      = STATUS_WOULDBLOCK ∧
    (posixSocket.receive (fun _ => "") 65536 exampleSocket exampleWorld (0, 0)
        { ret := -1, err := EAGAIN, data := [] }).sock.m_desc = exampleSocket.m_desc ∧
    (posixSocket.receive (fun _ => "") 65536 exampleSocket exampleWorld (0, 0)
        { ret := -1, err := EAGAIN, data := [] }).world.handles = exampleWorld.handles :=
  receive_no_data_sets_would_block (fun _ => "") 65536 exampleSocket exampleWorld (0, 0)
    { ret := -1, err := EAGAIN, data := [] } (by decide)
    (by intro th h; simp [exampleSocket] at h) (by decide) (by intro _; decide)

/-! ### Connect: resolution failure and exhausted candidates -/

theorem closeCurrent_desc {σ : Type} (s : posixSocket σ) (w : World) :
    (posixSocket.closeCurrent s w).1.m_desc = -1 := by
  unfold posixSocket.closeCurrent
  by_cases h : s.m_desc = -1 <;> simp [h]

theorem closeCurrent_handler {σ : Type} (s : posixSocket σ) (w : World) :
    (posixSocket.closeCurrent s w).1.m_timeoutHandler = s.m_timeoutHandler := by
  unfold posixSocket.closeCurrent
  by_cases h : s.m_desc = -1 <;> simp [h]

theorem closeCurrent_status {σ : Type} (s : posixSocket σ) (w : World) :
    (posixSocket.closeCurrent s w).1.m_status = s.m_status := by
  unfold posixSocket.closeCurrent
  by_cases h : s.m_desc = -1 <;> simp [h]

/-- C4 (as amended): when `getaddrinfo` fails, `connect` throws a
`connection_error` with the text "Cannot resolve address." that wraps no other
exception; it is of the same class as the error for exhausted candidates, and
the socket holds no handle afterwards. -/
theorem connect_unresolved_raises_connection_error {σ : Type} (strerror : Int → String)
    (s : posixSocket σ) (w : World) (address : String) (port : Nat) :
    ∃ o, posixSocket.connect strerror s w address port none = some o ∧
      o.result = Except.error (exception.connection_error "Cannot resolve address." none) ∧
      (∀ e, o.result = Except.error e → e.isConnectionError = true) ∧
      o.sock.m_desc = -1 := by
  refine ⟨_, rfl, rfl, ?_, closeCurrent_desc s w⟩
  intro e he
  simp only [Except.error.injEq] at he
  rw [← he]
  rfl

/-- C4 (as stated) fails: for an unresolvable host the exception thrown by
`connect` is a `connection_error`, not an error of a different kind. -/
theorem connect_unresolved_kind_counterexample :
    ¬ ∃ o e, posixSocket.connect (fun _ => "") exampleSocket exampleWorld "unknown.invalid" 25
        none = some o ∧ o.result = Except.error e ∧ e.isConnectionError = false := by
  rintro ⟨o, e, ho, he, hk⟩
  simp only [posixSocket.connect, Option.some.injEq] at ho
  subst ho
  simp only [Except.error.injEq] at he
  subst he
  simp [exception.isConnectionError] at hk

theorem connectCandidate_refused {σ : Type} (s : posixSocket σ) (w : World) (c : Candidate)
    (h : c.refused s.m_timeoutHandler.isSome = true) :
    ∃ w1, posixSocket.connectCandidate s w c = some (-1, s, w1) ∧
      w1.errno = c.failureErrno ∧ w1.handles = w.handles := by
  unfold Candidate.refused at h
  unfold Candidate.failureErrno
  cases hs : c.socketRet with
  | failed e =>
    refine ⟨{ w with errno := e, trace := w.trace ++ [Syscall.socket (-1)] }, ?_, rfl, rfl⟩
    unfold posixSocket.connectCandidate
    simp only [hs]
  | fd n =>
    simp only [hs, Bool.and_eq_true, decide_eq_true_eq, Bool.or_eq_true, Bool.not_eq_true'] at h
    obtain ⟨hneg, hmode⟩ := h
    cases hth : s.m_timeoutHandler with
    | none =>
      refine ⟨((w.socket (n : Int)).connect n c.connectRet).close n, ?_, ?_, ?_⟩
      · unfold posixSocket.connectCandidate
        simp only [hs, hth, hneg, if_true]
      · simp [World.close, World.connect, World.setErrno, World.log, hneg]
      · simp [World.close, World.connect, World.setErrno, World.log, World.socket, hneg]
    | some th =>
      have hnp : connectionInProgress c.connectRet.2 = false := by
        rcases hmode with hm | hm
        · simp [hth] at hm
        · exact hm
      have he : (((w.socket (n : Int)).setNonBlocking n).connect n c.connectRet).errno
          = c.connectRet.2 := by
        simp [World.connect, World.setErrno, World.log, hneg]
      refine ⟨(((w.socket (n : Int)).setNonBlocking n).connect n c.connectRet).close n,
        ?_, ?_, ?_⟩
      · unfold posixSocket.connectCandidate
        simp only [hs, hth, hneg, if_true, he, hnp]
        rfl
      · simp [World.close, World.connect, World.setErrno, World.log, hneg]
      · simp [World.close, World.connect, World.setErrno, World.log, World.socket,
          World.setNonBlocking, hneg]

theorem connectLoop_all_refused {σ : Type} (cands : List Candidate) (hne : cands ≠ []) :
    ∀ (s : posixSocket σ) (w : World),
      (∀ d ∈ cands, d.refused s.m_timeoutHandler.isSome = true) →
      ∃ w1, posixSocket.connectLoop s w cands = some (-1, s, w1) ∧
        w1.errno = (cands.getLast hne).failureErrno ∧ w1.handles = w.handles := by
  induction cands with
  | nil => exact absurd rfl hne
  | cons c rest ih =>
    intro s w hall
    obtain ⟨w1, hc, he, hh⟩ := connectCandidate_refused s w c (hall c (List.mem_cons_self _ _))
    by_cases hrest : rest = []
    · subst hrest
      refine ⟨w1, ?_, ?_, hh⟩
      · simp [posixSocket.connectLoop, hc]
      · simpa using he
    · obtain ⟨w2, hl, he2, hh2⟩ := ih hrest s w1 (fun d hd => hall d (List.mem_cons_of_mem _ hd))
      refine ⟨w2, ?_, ?_, ?_⟩
      · simp [posixSocket.connectLoop, hc, hl]
      · rw [he2, List.getLast_cons hrest]
      · rw [hh2, hh]

/-- C5: for a non-empty candidate list in which `::socket` or `::connect` fails
for every candidate, `connect` throws a `connection_error` wrapping the socket
exception that `throwSocketError` builds for the error code of the failing call
of the last candidate; the socket holds no handle afterwards, and no handle
allocated during the call stays open. -/
theorem connect_all_refused_raises_connection_error {σ : Type} (strerror : Int → String)
    (s : posixSocket σ) (w : World) (address : String) (port : Nat) (cands : List Candidate)
    (hne : cands ≠ [])
    (hall : ∀ d ∈ cands, d.refused s.m_timeoutHandler.isSome = true) :
    ∃ o, posixSocket.connect strerror s w address port (some cands) = some o ∧
      o.result = Except.error (exception.connection_error "Error while connecting socket."
        (some (posixSocket.throwSocketError strerror (cands.getLast hne).failureErrno))) ∧
      o.sock.m_desc = -1 ∧
      o.world.handles = (posixSocket.closeCurrent s w).2.handles := by
  obtain ⟨w1, hl, he, hh⟩ := connectLoop_all_refused cands hne
    { (posixSocket.closeCurrent s w).1 with m_serverAddress := address }
    ((posixSocket.closeCurrent s w).2.log (Syscall.getaddrinfo address))
    (by simpa [closeCurrent_handler] using hall)
  have hc : posixSocket.connect strerror s w address port (some cands) =
      some (posixSocket.connectFinish strerror
        (-1, { (posixSocket.closeCurrent s w).1 with m_serverAddress := address }, w1)) := by
    simp only [posixSocket.connect, hl]
  refine ⟨_, hc, ?_, ?_, ?_⟩
  · simp [posixSocket.connectFinish, World.log, he]
  · simp [posixSocket.connectFinish, closeCurrent_desc]
  · simp [posixSocket.connectFinish, World.log, hh]

/-- C5, instantiated in blocking mode: allocation fails for the first
candidate and the connection is refused for the second. -/
theorem connect_all_refused_raises_connection_error_witness :
    ∃ o, posixSocket.connect (fun _ => "") exampleSocket exampleWorld "192.0.2.1" 25
        (some [candidateNoHandle, candidateRefused]) = some o ∧
      o.result = Except.error (exception.connection_error "Error while connecting socket."
        (some (posixSocket.throwSocketError (fun _ => "")
          ([candidateNoHandle, candidateRefused].getLast (by simp)).failureErrno))) ∧
      o.sock.m_desc = -1 ∧
      o.world.handles = (posixSocket.closeCurrent exampleSocket exampleWorld).2.handles :=
  connect_all_refused_raises_connection_error (fun _ => "") exampleSocket exampleWorld
    "192.0.2.1" 25 [candidateNoHandle, candidateRefused] (by simp) (by decide)

/-! ### Connect: handles after a successful call -/

theorem pollLoop_handles {σ : Type} (sock : Int) (sel : List (Int × Int)) :
    ∀ (th : timeoutHandler σ) (w : World) (b : Bool) (th1 : timeoutHandler σ) (w1 : World),
      posixSocket.pollLoop sock th w sel = some (b, th1, w1) → w1.handles = w.handles := by
  induction sel with
  | nil => intro th w b th1 w1 h; simp [posixSocket.pollLoop] at h
  | cons r rest ih =>
    intro th w b th1 w1 h
    have hsel : (w.select sock r).handles = w.handles := by
      unfold World.select World.setErrno World.log
      split <;> rfl
    have hy : ((w.select sock r).log Syscall.sched_yield).handles = w.handles := hsel
    unfold posixSocket.pollLoop at h
    simp only at h
    split at h
    · simp only [Option.some.injEq, Prod.mk.injEq] at h
      rw [← h.2.2]; exact hsel
    · split at h
      · split at h
        · simp only [Option.some.injEq, Prod.mk.injEq] at h
          rw [← h.2.2]; exact hsel
        · rw [ih _ _ _ _ _ h]; exact hy
      · split at h
        · split at h
          · split at h
            · simp only [Option.some.injEq, Prod.mk.injEq] at h
              rw [← h.2.2]; exact hsel
            · rw [ih _ _ _ _ _ h]; exact hy
          · rw [ih _ _ _ _ _ h]; exact hy
        · rw [ih _ _ _ _ _ h]; exact hy

theorem connect_handles (w : World) (fd : Int) (r : Int × Int) :
    (w.connect fd r).handles = w.handles := by
  unfold World.connect World.setErrno World.log
  split <;> rfl

theorem connectCandidate_result {σ : Type} (s : posixSocket σ) (w : World) (c : Candidate)
    (sock : Int) (s1 : posixSocket σ) (w1 : World)
    (h : posixSocket.connectCandidate s w c = some (sock, s1, w1)) :
    s1.m_status = s.m_status ∧ s1.m_desc = s.m_desc ∧
    ((sock = -1 ∧ w1.handles = w.handles) ∨
      (∃ n : Nat, c.socketRet = SocketRet.fd n ∧ sock = n ∧ w1.handles = sock :: w.handles)) := by
  unfold posixSocket.connectCandidate at h
  cases hs : c.socketRet with
  | failed e =>
    simp only [hs, Option.some.injEq, Prod.mk.injEq] at h
    obtain ⟨h1, h2, h3⟩ := h
    subst h1 h2 h3
    exact ⟨rfl, rfl, Or.inl ⟨rfl, rfl⟩⟩
  | fd n =>
    simp only [hs] at h
    cases hth : s.m_timeoutHandler with
    | none =>
      simp only [hth] at h
      split at h
      · simp only [Option.some.injEq, Prod.mk.injEq] at h
        obtain ⟨h1, h2, h3⟩ := h
        subst h1 h2 h3
        refine ⟨rfl, rfl, Or.inl ⟨rfl, ?_⟩⟩
        simp [World.close, connect_handles, World.socket]
      · simp only [Option.some.injEq, Prod.mk.injEq] at h
        obtain ⟨h1, h2, h3⟩ := h
        subst h1 h2 h3
        refine ⟨rfl, rfl, Or.inr ⟨n, rfl, rfl, ?_⟩⟩
        simp [connect_handles, World.socket]
    | some th =>
      simp only [hth] at h
      have hw2 : (((w.socket (n : Int)).setNonBlocking n).connect n c.connectRet).handles
          = (n : Int) :: w.handles := by
        simp [connect_handles, World.socket, World.setNonBlocking, World.log]
      split at h
      · split at h
        · cases hp : posixSocket.pollLoop (n : Int) th.resetTimeOut
              (((w.socket (n : Int)).setNonBlocking n).connect n c.connectRet) c.selectRets with
          | none => simp [hp] at h
          | some r =>
            obtain ⟨connected, th1, w3⟩ := r
            have hh := pollLoop_handles _ _ _ _ _ _ _ hp
            simp only [hp] at h
            split at h
            · simp only [Option.some.injEq, Prod.mk.injEq] at h
              obtain ⟨h1, h2, h3⟩ := h
              subst h1 h2 h3
              refine ⟨rfl, rfl, Or.inl ⟨rfl, ?_⟩⟩
              simp [World.close, hh, hw2]
            · simp only [Option.some.injEq, Prod.mk.injEq] at h
              obtain ⟨h1, h2, h3⟩ := h
              subst h1 h2 h3
              refine ⟨rfl, rfl, Or.inr ⟨n, rfl, rfl, ?_⟩⟩
              rw [hh, hw2]
        · simp only [Option.some.injEq, Prod.mk.injEq] at h
          obtain ⟨h1, h2, h3⟩ := h
          subst h1 h2 h3
          refine ⟨rfl, rfl, Or.inl ⟨rfl, ?_⟩⟩
          simp [World.close, hw2]
      · simp only [Option.some.injEq, Prod.mk.injEq] at h
        obtain ⟨h1, h2, h3⟩ := h
        subst h1 h2 h3
        exact ⟨rfl, rfl, Or.inr ⟨n, rfl, rfl, hw2⟩⟩

theorem connectLoop_result {σ : Type} (cands : List Candidate) :
    ∀ (s : posixSocket σ) (w : World) (sock : Int) (s2 : posixSocket σ) (w2 : World),
      posixSocket.connectLoop s w cands = some (sock, s2, w2) →
      s2.m_status = s.m_status ∧ s2.m_desc = s.m_desc ∧
      ((sock = -1 ∧ w2.handles = w.handles) ∨
        (∃ (pre post : List Candidate) (c : Candidate) (s1 : posixSocket σ) (w1 : World)
            (n : Nat),
          cands = pre ++ c :: post ∧
          posixSocket.connectLoop s w pre = some (-1, s1, w1) ∧ w1.handles = w.handles ∧
          posixSocket.connectCandidate s1 w1 c = some (sock, s2, w2) ∧
          c.socketRet = SocketRet.fd n ∧ sock = n ∧ w2.handles = sock :: w.handles)) := by
  induction cands with
  | nil =>
    intro s w sock s2 w2 h
    simp only [posixSocket.connectLoop, Option.some.injEq, Prod.mk.injEq] at h
    obtain ⟨h1, h2, h3⟩ := h
    subst h1 h2 h3
    exact ⟨rfl, rfl, Or.inl ⟨rfl, rfl⟩⟩
  | cons c rest ih =>
    intro s w sock s2 w2 h
    unfold posixSocket.connectLoop at h
    cases hc : posixSocket.connectCandidate s w c with
    | none => simp [hc] at h
    | some r =>
      obtain ⟨sk, sa, wa⟩ := r
      obtain ⟨hst, hd, hcase⟩ := connectCandidate_result s w c sk sa wa hc
      simp only [hc] at h
      by_cases hsk : sk = -1
      · simp only [hsk, if_true] at h
        subst hsk
        have hwa : wa.handles = w.handles := by
          rcases hcase with ⟨_, hh⟩ | ⟨n, _, hn, _⟩
          · exact hh
          · omega
        obtain ⟨hst2, hd2, hcase2⟩ := ih sa wa sock s2 w2 h
        refine ⟨hst2.trans hst, hd2.trans hd, ?_⟩
        rcases hcase2 with ⟨h1, h2⟩ | ⟨pre, post, c2, s1, w1, n, hsplit, hpre, hw1, hatt, hfd, hn, hh⟩
        · exact Or.inl ⟨h1, h2.trans hwa⟩
        · refine Or.inr ⟨c :: pre, post, c2, s1, w1, n, by simp [hsplit], ?_, hw1.trans hwa,
            hatt, hfd, hn, by rw [hh, hwa]⟩
          simp [posixSocket.connectLoop, hc, hpre]
      · simp only [hsk, if_false, Option.some.injEq, Prod.mk.injEq] at h
        obtain ⟨h1, h2, h3⟩ := h
        subst h1 h2 h3
        refine ⟨hst, hd, ?_⟩
        rcases hcase with ⟨h1, _⟩ | ⟨n, hfd, hn, hh⟩
        · exact absurd h1 hsk
        · exact Or.inr ⟨[], rest, c, s, w, n, rfl, rfl, rfl, hc, hfd, hn, hh⟩

/-- C6: after a `connect` call that returned normally (with or without a
timeout handler, with or without a handle held before), the handle stored in
the socket is the one allocated for a candidate whose attempt succeeded while
the attempts for all candidates before it had ended with -1; the open handles
are that handle together with the handles that were open before, minus the one
the socket held.  When the only handle open before was the one held by the
socket, exactly the stored handle is open. -/
theorem connect_success_holds_exactly_one_handle {σ : Type} (strerror : Int → String)
    (s : posixSocket σ) (w : World) (address : String) (port : Nat) (cands : List Candidate)
    (o : Outcome σ Unit)
    (hrun : posixSocket.connect strerror s w address port (some cands) = some o)
    (hok : o.result = Except.ok ()) :
    o.sock.m_desc ≠ -1 ∧
    o.world.handles = o.sock.m_desc :: (posixSocket.closeCurrent s w).2.handles ∧
    (posixSocket.closeCurrent s w).2.handles =
      (if s.m_desc = -1 then w.handles else w.handles.erase s.m_desc) ∧
    (w.handles = (if s.m_desc = -1 then [] else [s.m_desc]) →
      o.world.handles = [o.sock.m_desc]) ∧
    ∃ (pre post : List Candidate) (c : Candidate) (s1 s2 : posixSocket σ) (w1 w2 : World)
      (n : Nat),
      cands = pre ++ c :: post ∧
      posixSocket.connectLoop { (posixSocket.closeCurrent s w).1 with m_serverAddress := address }
        ((posixSocket.closeCurrent s w).2.log (Syscall.getaddrinfo address)) pre
        = some (-1, s1, w1) ∧
      w1.handles = (posixSocket.closeCurrent s w).2.handles ∧
      posixSocket.connectCandidate s1 w1 c = some ((n : Int), s2, w2) ∧
      c.socketRet = SocketRet.fd n ∧ o.sock.m_desc = n := by
  have hclose : (posixSocket.closeCurrent s w).2.handles =
      (if s.m_desc = -1 then w.handles else w.handles.erase s.m_desc) := by
    unfold posixSocket.closeCurrent
    by_cases h : s.m_desc = -1 <;> simp [h, World.close]
  unfold posixSocket.connect at hrun
  cases hl : posixSocket.connectLoop
      { (posixSocket.closeCurrent s w).1 with m_serverAddress := address }
      ((posixSocket.closeCurrent s w).2.log (Syscall.getaddrinfo address)) cands with
  | none => simp [hl] at hrun
  | some r =>
    obtain ⟨sock, s2, w2⟩ := r
    simp only [hl, Option.some.injEq] at hrun
    subst hrun
    obtain ⟨_, _, hcase⟩ := connectLoop_result cands _ _ sock s2 w2 hl
    by_cases hsock : sock = -1
    · subst hsock
      simp [posixSocket.connectFinish] at hok
    · rcases hcase with ⟨h1, _⟩ | ⟨pre, post, c, s1, w1, n, hsplit, hpre, hw1, hatt, hfd, hn, hh⟩
      · exact absurd h1 hsock
      · have hdesc : (posixSocket.connectFinish strerror (sock, s2, w2)).sock.m_desc = sock := by
          simp [posixSocket.connectFinish, hsock]
        have hhand : (posixSocket.connectFinish strerror (sock, s2, w2)).world.handles
            = sock :: (posixSocket.closeCurrent s w).2.handles := by
          simp [posixSocket.connectFinish, hsock, World.setNonBlocking, World.log, hh]
        refine ⟨by rw [hdesc]; exact hsock, by rw [hhand, hdesc], hclose, ?_,
          pre, post, c, s1, s2, w1, w2, n, hsplit, hpre, hw1, by rw [← hn]; exact hatt, hfd,
          by rw [hdesc]; exact hn⟩
        intro hw
        rw [hhand, hdesc, hclose, hw]
        by_cases hd : s.m_desc = -1 <;> simp [hd]

/-- C6, instantiated in bounded-poll mode: the socket holds handle 5, the first
candidate is refused, the second one connects on the second `select`; handle 10
is stored and is the only handle open. -/
theorem connect_success_holds_exactly_one_handle_witness :
    ∃ o, posixSocket.connect (fun _ => "") exampleReconnectingSocket exampleWorld
        "mail.example.org" 25 (some [candidateRefused, candidateEventually]) = some o ∧
      o.result = Except.ok () ∧ o.sock.m_desc = 10 ∧ o.world.handles = [o.sock.m_desc] :=
  ⟨(posixSocket.connect (fun _ => "") exampleReconnectingSocket exampleWorld
      "mail.example.org" 25 (some [candidateRefused, candidateEventually])).get rfl,
    rfl, rfl, rfl,
    (connect_success_holds_exactly_one_handle (fun _ => "") exampleReconnectingSocket
      exampleWorld "mail.example.org" 25 [candidateRefused, candidateEventually] _ rfl
      rfl).2.2.2.1 rfl⟩

/-! ### Disconnect and peer name -/

/-- C7: `disconnect` is idempotent.  A second `disconnect` changes neither the
socket nor the world (so it issues no `shutdown` and no `close`); after the
first one the handle is absent, and the calls issued are one `shutdown` and one
`close` of the held handle, or none when no handle was held.  The operation is
a total function: no call throws. -/
theorem disconnect_idempotent {σ : Type} (s : posixSocket σ) (w : World) :
    posixSocket.disconnect (posixSocket.disconnect s w).1 (posixSocket.disconnect s w).2
      = posixSocket.disconnect s w ∧
    (posixSocket.disconnect s w).1.m_desc = -1 ∧
    (posixSocket.disconnect (posixSocket.disconnect s w).1 (posixSocket.disconnect s w).2).2.trace
      = w.trace ++
        (if s.m_desc = -1 then [] else [Syscall.shutdown s.m_desc, Syscall.close s.m_desc]) ∧
    (posixSocket.disconnect s w).2.handles =
      (if s.m_desc = -1 then w.handles else w.handles.erase s.m_desc) := by
  by_cases h : s.m_desc = -1
  · simp [posixSocket.disconnect, h]
  · simp [posixSocket.disconnect, h, World.close, World.shutdown, World.log]

/-- C8: on a connected socket, `getPeerName` returns the host name found by
`getnameinfo` when the address recorded by `connect` is numeric and the lookup
succeeds; it returns the recorded address when that address is not numeric or
the lookup fails; and `getnameinfo` is called exactly when the recorded address
is numeric. -/
theorem getPeerName_reverse_lookup_policy {σ : Type} (ns : NameService) (s : posixSocket σ)
    (w : World) (_hconn : s.m_desc ≠ -1) :
    (∀ host, ns.numericHost s.m_serverAddress = true →
      ns.getnameinfo (ns.getpeername s.m_desc) = some host →
      (posixSocket.getPeerName ns s w).1 = host) ∧
    (ns.numericHost s.m_serverAddress = false ∨
        ns.getnameinfo (ns.getpeername s.m_desc) = none →
      (posixSocket.getPeerName ns s w).1 = s.m_serverAddress) ∧
    (ns.numericHost s.m_serverAddress = false →
      (posixSocket.getPeerName ns s w).2.trace =
        w.trace ++ [Syscall.getpeername s.m_desc, Syscall.getaddrinfo s.m_serverAddress]) ∧
    (Syscall.getnameinfo ∈ (posixSocket.getPeerName ns s w).2.trace.drop w.trace.length ↔
      ns.numericHost s.m_serverAddress = true) := by
  unfold posixSocket.getPeerName isNumericAddress
  cases hnum : ns.numericHost s.m_serverAddress with
  | false => simp [World.log]
  | true =>
    cases hlook : ns.getnameinfo (ns.getpeername s.m_desc) with
    | none => simp [World.log, hlook]
    | some host => simp [World.log, hlook]

/-- C8, instantiated: the socket connected to the numeric address 192.0.2.1,
whose reverse lookup succeeds. -/
theorem getPeerName_reverse_lookup_policy_witness :
    exampleSocket.m_desc ≠ -1 ∧
    (posixSocket.getPeerName exampleNameService exampleSocket exampleWorld).1
      = "mail.example.org" :=
  ⟨by decide,
    (getPeerName_reverse_lookup_policy exampleNameService exampleSocket exampleWorld
      (by decide)).1 "mail.example.org" (by decide) (by decide)⟩

/-! ### Reconnecting -/

theorem disconnect_status {σ : Type} (s : posixSocket σ) (w : World) :
    (posixSocket.disconnect s w).1.m_status = s.m_status := by
  unfold posixSocket.disconnect
  by_cases h : s.m_desc = -1 <;> simp [h]

theorem connect_status {σ : Type} (strerror : Int → String) (s : posixSocket σ) (w : World)
    (address : String) (port : Nat) (res0 : Option (List Candidate)) (o : Outcome σ Unit)
    (hrun : posixSocket.connect strerror s w address port res0 = some o) :
    o.sock.m_status = s.m_status := by
  unfold posixSocket.connect at hrun
  cases res0 with
  | none =>
    simp only [Option.some.injEq] at hrun
    subst hrun
    exact closeCurrent_status s w
  | some cands =>
    simp only at hrun
    cases hl : posixSocket.connectLoop
        { (posixSocket.closeCurrent s w).1 with m_serverAddress := address }
        ((posixSocket.closeCurrent s w).2.log (Syscall.getaddrinfo address)) cands with
    | none => simp [hl] at hrun
    | some r =>
      obtain ⟨sock, s2, w2⟩ := r
      simp only [hl, Option.some.injEq] at hrun
      subst hrun
      obtain ⟨hst, _, _⟩ := connectLoop_result cands _ _ sock s2 w2 hl
      have hfin : (posixSocket.connectFinish strerror (sock, s2, w2)).sock.m_status
          = s2.m_status := by
        unfold posixSocket.connectFinish
        by_cases hs : sock = -1 <;> simp [hs]
      rw [hfin, hst]
      exact closeCurrent_status s w

/-- C9 (as amended): `disconnect` followed by a successful `connect` leaves the
status as it was; a socket whose status had `STATUS_WOULDBLOCK` set still has
it set, and `getStatus` returns the same non-zero value as before. -/
theorem reconnect_keeps_status {σ : Type} (strerror : Int → String) (s : posixSocket σ)
    (w : World) (address : String) (port : Nat) (res0 : Option (List Candidate))
    (o : Outcome σ Unit)
    (hwb : s.getStatus &&& STATUS_WOULDBLOCK = STATUS_WOULDBLOCK)
    (hrun : posixSocket.connect strerror (posixSocket.disconnect s w).1
      (posixSocket.disconnect s w).2 address port res0 = some o)
    (_hok : o.result = Except.ok ()) :
    o.sock.getStatus = s.getStatus ∧
    o.sock.getStatus &&& STATUS_WOULDBLOCK = STATUS_WOULDBLOCK ∧
    o.sock.getStatus ≠ 0 := by
  have hst : o.sock.getStatus = s.getStatus := by
    unfold posixSocket.getStatus
    rw [connect_status strerror _ _ address port res0 o hrun, disconnect_status]
  refine ⟨hst, by rw [hst]; exact hwb, ?_⟩
  rw [hst]
  intro h0
  rw [h0] at hwb
  simp [STATUS_WOULDBLOCK] at hwb

/-- C9 (as amended), instantiated: the socket that found no data on `receive`
is disconnected and connected again. -/
theorem reconnect_keeps_status_witness :
    exampleStalledSocket.getStatus &&& STATUS_WOULDBLOCK = STATUS_WOULDBLOCK ∧
    ∃ o, posixSocket.connect (fun _ => "")
        (posixSocket.disconnect exampleStalledSocket exampleStalledWorld).1
        (posixSocket.disconnect exampleStalledSocket exampleStalledWorld).2
        "192.0.2.1" 25 (some [candidateAccepting]) = some o ∧
      o.result = Except.ok () ∧ o.sock.getStatus = exampleStalledSocket.getStatus :=
  ⟨by decide,
    (posixSocket.connect (fun _ => "")
        (posixSocket.disconnect exampleStalledSocket exampleStalledWorld).1
        (posixSocket.disconnect exampleStalledSocket exampleStalledWorld).2
        "192.0.2.1" 25 (some [candidateAccepting])).get rfl,
    rfl, rfl,
    (reconnect_keeps_status (fun _ => "") exampleStalledSocket exampleStalledWorld
      "192.0.2.1" 25 (some [candidateAccepting]) _ (by decide) rfl rfl).1⟩

/-- C9 (as stated) fails: the socket whose `receive` found no data has
`STATUS_WOULDBLOCK` set; after `disconnect` and a successful `connect`,
`getStatus` returns 1, not 0. -/
theorem reconnect_status_not_reset_counterexample :
    exampleStalledSocket.getStatus &&& STATUS_WOULDBLOCK = STATUS_WOULDBLOCK ∧
    ∃ o, posixSocket.connect (fun _ => "")
        (posixSocket.disconnect exampleStalledSocket exampleStalledWorld).1
        (posixSocket.disconnect exampleStalledSocket exampleStalledWorld).2
        "192.0.2.1" 25 (some [candidateAccepting]) = some o ∧
      o.result = Except.ok () ∧ o.sock.m_desc = 8 ∧ o.sock.getStatus = 1 ∧
      o.sock.getStatus ≠ 0 :=
  ⟨by decide,
    (posixSocket.connect (fun _ => "")
        (posixSocket.disconnect exampleStalledSocket exampleStalledWorld).1
        (posixSocket.disconnect exampleStalledSocket exampleStalledWorld).2
        "192.0.2.1" 25 (some [candidateAccepting])).get rfl,
    rfl, rfl, rfl, rfl, by decide⟩

/-! ### Connect: the bounded poll -/

theorem setErrno_trace (w : World) (ret err : Int) : (w.setErrno ret err).trace = w.trace := by
  unfold World.setErrno
  split <;> rfl

theorem setErrno_handles (w : World) (ret err : Int) :
    (w.setErrno ret err).handles = w.handles := by
  unfold World.setErrno
  split <;> rfl

theorem connectLoop_append_failed {σ : Type} (pre more : List Candidate) :
    ∀ (s0 : posixSocket σ) (w0 : World) (s : posixSocket σ) (w : World),
      posixSocket.connectLoop s0 w0 pre = some (-1, s, w) →
      posixSocket.connectLoop s0 w0 (pre ++ more) = posixSocket.connectLoop s w more := by
  induction pre with
  | nil =>
    intro s0 w0 s w h
    simp only [posixSocket.connectLoop, Option.some.injEq, Prod.mk.injEq, true_and] at h
    obtain ⟨h1, h2⟩ := h
    subst h1 h2
    rfl
  | cons c rest ih =>
    intro s0 w0 s w h
    unfold posixSocket.connectLoop at h
    rw [List.cons_append]
    conv_lhs => unfold posixSocket.connectLoop
    cases hc : posixSocket.connectCandidate s0 w0 c with
    | none => simp [hc] at h
    | some r =>
      obtain ⟨sk, sa, wa⟩ := r
      simp only [hc] at h ⊢
      by_cases hsk : sk = -1
      · simp only [hsk, if_true] at h ⊢
        exact ih sa wa s w h
      · rw [if_neg hsk] at h
        simp only [Option.some.injEq, Prod.mk.injEq] at h
        exact absurd h.1 hsk

theorem pollLoop_refused_at_first_expiry {σ : Type} (sock : Int) (th : timeoutHandler σ)
    (w : World) (e : Int) (rest : List (Int × Int))
    (helapsed : th.isTimeOut.1 = true) (hrefuse : th.isTimeOut.2.handleTimeOut.1 = false) :
    posixSocket.pollLoop sock th w ((0, e) :: rest) =
      some (false, th.isTimeOut.2.handleTimeOut.2, w.select sock (0, e)) := by
  unfold posixSocket.pollLoop
  simp [helapsed, hrefuse]

/-- C10: in bounded-poll mode, when the non-blocking `::connect` of a candidate
is pending, the first `::select` returns 0, and the timeout handler then
reports the timer elapsed and refuses to continue, the attempt ends with -1
after exactly one `::select` on the new handle, whatever further results
`::select` would have given; the handle is closed; the loop goes on with the
next candidate; and when the candidate is the last one `connect` throws a
`connection_error` wrapping a socket exception. -/
theorem connect_poll_refusal_abandons_after_one_wait {σ : Type} (s : posixSocket σ) (w : World)
    (th : timeoutHandler σ) (c : Candidate) (n : Nat) (e : Int) (rest : List (Int × Int))
    (hmode : s.m_timeoutHandler = some th)
    (hsock : c.socketRet = SocketRet.fd n)
    (hpend : c.connectRet.1 < 0 ∧ connectionInProgress c.connectRet.2 = true)
    (hsel : c.selectRets = (0, e) :: rest)
    (helapsed : th.resetTimeOut.isTimeOut.1 = true)
    (hrefuse : th.resetTimeOut.isTimeOut.2.handleTimeOut.1 = false) :
    ∃ (s1 : posixSocket σ) (w1 : World),
      posixSocket.connectCandidate s w c = some (-1, s1, w1) ∧
      w1.trace = w.trace ++ [Syscall.socket n, Syscall.fcntl n, Syscall.fcntl n,
        Syscall.connect n, Syscall.select n, Syscall.close n] ∧
      w1.handles = w.handles ∧
      (∀ more, posixSocket.connectLoop s w (c :: more) = posixSocket.connectLoop s1 w1 more) ∧
      (∀ (strerror : Int → String) (s0 : posixSocket σ) (w0 : World) (address : String)
          (port : Nat) (pre : List Candidate),
        posixSocket.connectLoop
          { (posixSocket.closeCurrent s0 w0).1 with m_serverAddress := address }
          ((posixSocket.closeCurrent s0 w0).2.log (Syscall.getaddrinfo address)) pre
          = some (-1, s, w) →
        ∃ o cause, posixSocket.connect strerror s0 w0 address port (some (pre ++ [c])) = some o ∧
          o.result = Except.error
            (exception.connection_error "Error while connecting socket." (some cause)) ∧
          cause.isSocketException = true ∧ o.sock.m_desc = -1) := by
  obtain ⟨hneg, hprog⟩ := hpend
  have he : (((w.socket (n : Int)).setNonBlocking n).connect n c.connectRet).errno
      = c.connectRet.2 := by
    simp [World.connect, World.setErrno, World.log, hneg]
  have hpoll := pollLoop_refused_at_first_expiry (n : Int) th.resetTimeOut
    (((w.socket (n : Int)).setNonBlocking n).connect n c.connectRet) e rest helapsed hrefuse
  have hc : posixSocket.connectCandidate s w c = some (-1,
      { s with m_timeoutHandler := some th.resetTimeOut.isTimeOut.2.handleTimeOut.2 },
      (((((w.socket (n : Int)).setNonBlocking n).connect n c.connectRet).select n
        (0, e)).close n)) := by
    unfold posixSocket.connectCandidate
    simp only [hsock, hmode, hneg, if_true, he, hprog, hsel, hpoll]
    rfl
  have hloop : ∀ more, posixSocket.connectLoop s w (c :: more) = posixSocket.connectLoop
      { s with m_timeoutHandler := some th.resetTimeOut.isTimeOut.2.handleTimeOut.2 }
      (((((w.socket (n : Int)).setNonBlocking n).connect n c.connectRet).select n
        (0, e)).close n) more := by
    intro more
    rw [posixSocket.connectLoop]
    simp only [hc, if_true]
  refine ⟨_, _, hc, ?_, ?_, hloop, ?_⟩
  · simp [World.close, World.select, World.connect, World.setNonBlocking, World.socket,
      World.log, setErrno_trace]
  · simp [World.close, World.select, World.connect, World.setNonBlocking, World.socket,
      World.log, setErrno_handles]
  · intro strerror s0 w0 address port pre hpre
    have hall := connectLoop_append_failed pre [c] _ _ s w hpre
    rw [hloop []] at hall
    obtain ⟨_, hdesc, _⟩ := connectLoop_result pre _ _ _ _ _ hpre
    have hrun : posixSocket.connect strerror s0 w0 address port (some (pre ++ [c])) =
        some (posixSocket.connectFinish strerror (-1,
          { s with m_timeoutHandler := some th.resetTimeOut.isTimeOut.2.handleTimeOut.2 },
          (((((w.socket (n : Int)).setNonBlocking n).connect n c.connectRet).select n
            (0, e)).close n))) := by
      simp only [posixSocket.connect, hall, posixSocket.connectLoop]
    refine ⟨_, posixSocket.throwSocketError strerror
      ((((((w.socket (n : Int)).setNonBlocking n).connect n c.connectRet).select n
        (0, e)).close n).log Syscall.freeaddrinfo).errno, hrun, ?_, rfl, ?_⟩
    · simp only [posixSocket.connectFinish, if_true]
    · simp only [posixSocket.connectFinish, if_true, hdesc]
      exact closeCurrent_desc s0 w0

/-- C10, instantiated: a socket bound to a handler that always reports an
elapsed timer and never continues, and a candidate on which `select` would
expire three times. -/
theorem connect_poll_refusal_abandons_after_one_wait_witness :
    ∃ (s1 : posixSocket Nat) (w1 : World),
      posixSocket.connectCandidate examplePollingSocket exampleWorld candidateSilent
        = some (-1, s1, w1) ∧
      w1.trace = exampleWorld.trace ++ [Syscall.socket 9, Syscall.fcntl 9, Syscall.fcntl 9,
        Syscall.connect 9, Syscall.select 9, Syscall.close 9] ∧
      w1.handles = exampleWorld.handles :=
  (connect_poll_refusal_abandons_after_one_wait examplePollingSocket exampleWorld
    impatientHandler candidateSilent 9 0 [(0, 0), (0, 0)] rfl rfl (by decide) rfl rfl rfl).imp
    (fun _ h => h.imp (fun _ h2 => ⟨h2.1, h2.2.1, h2.2.2.1⟩))

/-! ### Connect: a failing `select` in the bounded poll -/

theorem pollLoop_continues_after_select_error {σ : Type} (sock : Int) (th : timeoutHandler σ)
    (w : World) (e : Int) (rest : List (Int × Int)) :
    posixSocket.pollLoop sock th w ((-1, e) :: rest) =
      posixSocket.pollLoop sock th ((w.select sock (-1, e)).log Syscall.sched_yield) rest := by
  conv_lhs => unfold posixSocket.pollLoop
  simp

/-- C11 (the code at the failing input): bounded-poll mode, pending connect on
handle 11, first `select` returns -1 with `ENOMEM`.  The test `ret < -1` does
not hold for -1, so the loop yields and calls `select` on the same handle
again; as that call returns 1 the candidate is taken as connected: handle 11
is never closed, it is stored in the socket, and the next candidate is not
tried. -/
theorem connect_poll_select_error_keeps_waiting :
    (∃ (s1 : posixSocket Nat) (w1 : World),
      posixSocket.connectCandidate examplePollingSocket exampleWorld candidateSelectError
        = some (11, s1, w1) ∧
      w1.trace = [Syscall.socket 11, Syscall.fcntl 11, Syscall.fcntl 11, Syscall.connect 11,
        Syscall.select 11, Syscall.sched_yield, Syscall.select 11] ∧
      w1.handles = [11, 5] ∧ w1.errno = ENOMEM) ∧
    (∃ o, posixSocket.connect (fun _ => "") examplePollingSocket exampleWorld
        "mail.example.org" 25 (some [candidateSelectError, candidateAccepting]) = some o ∧
      o.result = Except.ok () ∧ o.sock.m_desc = 11 ∧
      Syscall.close 11 ∉ o.world.trace ∧ Syscall.socket 8 ∉ o.world.trace) :=
  ⟨⟨_, _, rfl, rfl, rfl, rfl⟩,
    ⟨(posixSocket.connect (fun _ => "") examplePollingSocket exampleWorld
        "mail.example.org" 25 (some [candidateSelectError, candidateAccepting])).get rfl,
      rfl, rfl, rfl, by decide, by decide⟩⟩

/-! ### MDNHelper: a built notification is not recognised -/

theorem buildMDN_contentType (generate : header → String) (now : datetime)
    (mdnInfos : sendableMDNInfos) (text : String) (ch : charset) (expeditor : mailbox)
    (dispo : disposition) (reportingUA : String) (reportingUAProducts : List String) :
    (MDNHelper.buildMDN generate now mdnInfos text ch expeditor dispo reportingUA
        reportingUAProducts).header.findField fields.CONTENT_TYPE =
      some { name := fields.CONTENT_TYPE,
             value := fieldValue.ofMediaType
               { type := mediaTypes.MULTIPART, subType := mediaTypes.MULTIPART_REPORT },
             parameters := [{ name := "report-type", value := "disosition-notification" }] } := by
  simp [MDNHelper.buildMDN, message.create, header.store, header.getField, header.hasField,
    header.findField, header.appendField, headerFieldFactory.create, headerField.setValue,
    headerField.setReportType, headerField.setParameter, headerField.hasParameter,
    fields.CONTENT_TYPE, fields.DISPOSITION, fields.TO, fields.FROM, fields.SUBJECT,
    fields.DATE, fields.MIME_VERSION]

theorem isMDN_buildMDN_eq_false (generate : header → String) (now : datetime)
    (mdnInfos : sendableMDNInfos) (text : String) (ch : charset) (expeditor : mailbox)
    (dispo : disposition) (reportingUA : String) (reportingUAProducts : List String) :
    MDNHelper.isMDN (MDNHelper.buildMDN generate now mdnInfos text ch expeditor dispo
      reportingUA reportingUAProducts) = false ∧
    MDNHelper.getReceivedMDN (MDNHelper.buildMDN generate now mdnInfos text ch expeditor dispo
      reportingUA reportingUAProducts) = Except.error exceptions.invalid_argument := by
  have hct := buildMDN_contentType generate now mdnInfos text ch expeditor dispo reportingUA
    reportingUAProducts
  have h : MDNHelper.isMDN (MDNHelper.buildMDN generate now mdnInfos text ch expeditor dispo
      reportingUA reportingUAProducts) = false := by
    unfold MDNHelper.isMDN
    simp only [header.getField, hct, Option.getD_some]
    simp [headerField.getReportType, headerField.findParameter, headerField.hasParameter]
  refine ⟨h, ?_⟩
  unfold MDNHelper.getReceivedMDN
  simp [h]

/-- C12 (the code at the failing input): the message that `buildMDN` makes for
`exampleMDNInfos` has the Content-Type multipart/report, which `isMDN` tests
for, but its report-type parameter is "disosition-notification" while `isMDN`
tests for "disposition-notification"; `isMDN` returns false on it and
`getReceivedMDN` throws `invalid_argument`. -/
theorem buildMDN_result_rejected_by_isMDN :
    MDNHelper.isMDN exampleBuiltMDN = false ∧
    MDNHelper.getReceivedMDN exampleBuiltMDN = Except.error exceptions.invalid_argument ∧
    (exampleBuiltMDN.header.getField fields.CONTENT_TYPE).getMediaType =
      { type := mediaTypes.MULTIPART, subType := mediaTypes.MULTIPART_REPORT } ∧
    (exampleBuiltMDN.header.getField fields.CONTENT_TYPE).hasParameter "report-type" = true ∧
    (exampleBuiltMDN.header.getField fields.CONTENT_TYPE).getReportType =
      some "disosition-notification" :=
  ⟨rfl, rfl, rfl, rfl, rfl⟩

end vmime
